import Mathlib

/-
Verification of the Momentum X time-power / difficulty / scoring core.

The embedding below is a shallow model of the repository's JavaScript
sources, translated method by method:

  * `powers.js`   : `PowerManager` (this file is fully implemented).
  * `obstacles.js`: `Obstacle` / `ObstacleManager` (the fully implemented
    canvas version; the trailing `ObstacleManager` placeholder in the same
    file has empty bodies and is non-normative per the design notes).
  * `player.js`   : `Player` (first unit) and the fully implemented `Game`
    class (second unit).  `game.js` holds an earlier `Game` variant whose
    power-manager wiring is commented out; the design notes designate the
    fully implemented variant as normative, and that is the one embedded
    here.
  * `utils.js`    : `GAME_CONFIG` constants and `checkCollision`.

All JavaScript numbers are modelled as rationals (ℚ).  Purely cosmetic
computations (particles, pulse intensity via `Math.sin`, parallax layers,
rendering, console logging) are omitted: they write no field read by the
game logic.  Randomness in obstacle spawning (type and y position) is
modelled by explicit oracle arguments.
-/

/-- Game configuration constant `FREEZE_DURATION` (utils.js). -/
def FREEZE_DURATION : ℚ := 2000

/-- Game configuration constant `FREEZE_COOLDOWN` (utils.js). -/
def FREEZE_COOLDOWN : ℚ := 5000

/-- Game configuration constant `SLOW_DURATION` (utils.js). -/
def SLOW_DURATION : ℚ := 3000

/-- Game configuration constant `SLOW_COOLDOWN` (utils.js). -/
def SLOW_COOLDOWN : ℚ := 4000

/-- Game configuration constant `SPEED_DURATION` (utils.js). -/
def SPEED_DURATION : ℚ := 1500

/-- Game configuration constant `SPEED_COOLDOWN` (utils.js). -/
def SPEED_COOLDOWN : ℚ := 6000

/-- Game configuration constant `SCORE_PER_SECOND` (utils.js). -/
def SCORE_PER_SECOND : ℚ := 1

/-- Game configuration constant `SCORE_PER_OBSTACLE` (utils.js). -/
def SCORE_PER_OBSTACLE : ℚ := 5

/-- Game configuration constant `DIFFICULTY_INTERVAL` (utils.js). -/
def DIFFICULTY_INTERVAL : ℚ := 20000

/-- Game configuration constant `DIFFICULTY_SPEED_INCREASE` (utils.js). -/
def DIFFICULTY_SPEED_INCREASE : ℚ := 1/5

/-- Game configuration constant `DIFFICULTY_SPAWN_DECREASE` (utils.js). -/
def DIFFICULTY_SPAWN_DECREASE : ℚ := 150

/-- Game configuration constant `OBSTACLE_SPAWN_RATE` (utils.js). -/
def OBSTACLE_SPAWN_RATE : ℚ := 1500

/-- Game configuration constant `OBSTACLE_MIN_GAP` (utils.js). -/
def OBSTACLE_MIN_GAP : ℚ := 500

/-- Game configuration constant `OBSTACLE_MIN_SPEED` (utils.js). -/
def OBSTACLE_MIN_SPEED : ℚ := 200

/-- Game configuration constant `CANVAS_WIDTH` (utils.js). -/
def CANVAS_WIDTH : ℚ := 1200

/-- The `TIME_STATES` enumeration from utils.js. -/
inductive TimeState
  | normal
  | frozen
  | slow
  | fast
deriving DecidableEq

/-- Names of the three powers (the keys of `this.powers` in powers.js). -/
inductive PName
  | freeze
  | slow
  | speed
deriving DecidableEq

/-- One power record of `PowerManager.powers` (powers.js, constructor).
The `key` field (key binding string) is omitted: it is never read by the
game logic. -/
structure Power where
  active : Bool
  cooldown : ℚ
  duration : ℚ
  maxDuration : ℚ
  maxCooldown : ℚ
deriving DecidableEq

/-- The `PowerManager` state (powers.js, constructor). -/
structure PowerManager where
  freeze : Power
  slow : Power
  speed : Power
  currentTimeState : TimeState
  timeMultiplier : ℚ
deriving DecidableEq

/-- `PowerManager` constructor (powers.js, lines 11-45). -/
def PowerManager.start : PowerManager :=
  { freeze := { active := false, cooldown := 0, duration := 0,
                maxDuration := FREEZE_DURATION, maxCooldown := FREEZE_COOLDOWN }
    slow := { active := false, cooldown := 0, duration := 0,
              maxDuration := SLOW_DURATION, maxCooldown := SLOW_COOLDOWN }
    speed := { active := false, cooldown := 0, duration := 0,
               maxDuration := SPEED_DURATION, maxCooldown := SPEED_COOLDOWN }
    currentTimeState := TimeState.normal
    timeMultiplier := 1 }

/-- Dynamic lookup `this.powers[powerName]` (powers.js). -/
def PowerManager.getPower (pm : PowerManager) : PName → Power
  | PName.freeze => pm.freeze
  | PName.slow => pm.slow
  | PName.speed => pm.speed

/-- Write back one power record under its name. -/
def PowerManager.setPower (pm : PowerManager) : PName → Power → PowerManager
  | PName.freeze, p => { pm with freeze := p }
  | PName.slow, p => { pm with slow := p }
  | PName.speed, p => { pm with speed := p }

/-- `PowerManager.updateTimeState` (powers.js, lines 202-217): recompute
`currentTimeState` and `timeMultiplier` from the active flags with
precedence freeze, then slow, then speed, then normal. -/
def PowerManager.updateTimeState (pm : PowerManager) : PowerManager :=
  if pm.freeze.active then
    { pm with currentTimeState := TimeState.frozen, timeMultiplier := 0 }
  else if pm.slow.active then
    { pm with currentTimeState := TimeState.slow, timeMultiplier := 1/2 }
  else if pm.speed.active then
    { pm with currentTimeState := TimeState.fast, timeMultiplier := 2 }
  else
    { pm with currentTimeState := TimeState.normal, timeMultiplier := 1 }

/-- The active-duration half of the per-power loop body of
`PowerManager.update` (powers.js, lines 58-67): if active, decrement
`duration`; on crossing `<= 0` the power is deactivated
(`deactivatePower` sets `active = false`, `duration = 0`). -/
def Power.tickActive (delta : ℚ) (p : Power) : Power :=
  if p.active then
    let d := p.duration - delta
    if d ≤ 0 then { p with active := false, duration := 0 }
    else { p with duration := d }
  else p

/-- The cooldown half of the per-power loop body of `PowerManager.update`
(powers.js, lines 69-76): if `cooldown > 0`, decrement it and clamp to 0
when it crosses `<= 0`. -/
def Power.tickCooldown (delta : ℚ) (p : Power) : Power :=
  if 0 < p.cooldown then
    let c := p.cooldown - delta
    if c ≤ 0 then { p with cooldown := 0 } else { p with cooldown := c }
  else p

/-- One full iteration of the per-power loop in `PowerManager.update`. -/
def Power.tick (delta : ℚ) (p : Power) : Power :=
  Power.tickCooldown delta (Power.tickActive delta p)

/-- `PowerManager.update(deltaTime)` (powers.js, lines 51-81): tick each
power, then recompute the time state.  The `updateTimeState` calls made
by `deactivatePower` inside the loop are overwritten by the final
`updateTimeState`, so only the latter is observable. -/
def PowerManager.update (delta : ℚ) (pm : PowerManager) : PowerManager :=
  PowerManager.updateTimeState
    { pm with freeze := Power.tick delta pm.freeze
              slow := Power.tick delta pm.slow
              speed := Power.tick delta pm.speed }

/-- `PowerManager.canActivatePower(powerName)` (powers.js, lines 166-171):
`power.cooldown <= 0 && !power.active`. -/
def PowerManager.canActivatePower (pm : PowerManager) (n : PName) : Bool :=
  decide ((pm.getPower n).cooldown ≤ 0) && !(pm.getPower n).active

/-- `PowerManager.deactivatePower(powerName)` (powers.js, lines 177-186):
clear the active flag and the remaining duration, leave the cooldown
untouched, then recompute the time state. -/
def PowerManager.deactivatePower (pm : PowerManager) (n : PName) : PowerManager :=
  PowerManager.updateTimeState
    (pm.setPower n { pm.getPower n with active := false, duration := 0 })

/-- `PowerManager.deactivateAllPowers` (powers.js, lines 191-197): call
`deactivatePower` on each currently active power, in the object-key order
freeze, slow, speed. -/
def PowerManager.deactivateAllPowers (pm : PowerManager) : PowerManager :=
  let pm1 := if pm.freeze.active then pm.deactivatePower PName.freeze else pm
  let pm2 := if pm1.slow.active then pm1.deactivatePower PName.slow else pm1
  if pm2.speed.active then pm2.deactivatePower PName.speed else pm2

/-- Common body of `activateFreeze` / `activateSlow` / `activateSpeed`
(powers.js, lines 87-159; the three methods are identical up to the power
record they address): bail out returning `false` when `canActivatePower`
fails, otherwise deactivate the other powers, start the full
duration/cooldown pair, recompute the time state and return `true`. -/
def PowerManager.activatePower (pm : PowerManager) (n : PName) : PowerManager × Bool :=
  if !pm.canActivatePower n then (pm, false)
  else
    let pm1 := pm.deactivateAllPowers
    let p := pm1.getPower n
    let pm2 := pm1.setPower n
      { p with active := true, duration := p.maxDuration, cooldown := p.maxCooldown }
    (pm2.updateTimeState, true)

/-- `PowerManager.activateFreeze` (powers.js, lines 87-107). -/
def PowerManager.activateFreeze (pm : PowerManager) : PowerManager × Bool :=
  pm.activatePower PName.freeze

/-- `PowerManager.activateSlow` (powers.js, lines 113-133). -/
def PowerManager.activateSlow (pm : PowerManager) : PowerManager × Bool :=
  pm.activatePower PName.slow

/-- `PowerManager.activateSpeed` (powers.js, lines 139-159). -/
def PowerManager.activateSpeed (pm : PowerManager) : PowerManager × Bool :=
  pm.activatePower PName.speed

/-- `PowerManager.reset` (powers.js, lines 281-293). -/
def PowerManager.reset (pm : PowerManager) : PowerManager :=
  { pm with
    freeze := { pm.freeze with active := false, cooldown := 0, duration := 0 }
    slow := { pm.slow with active := false, cooldown := 0, duration := 0 }
    speed := { pm.speed with active := false, cooldown := 0, duration := 0 }
    currentTimeState := TimeState.normal
    timeMultiplier := 1 }

/-- One externally triggerable `PowerManager` operation. -/
inductive PMOp
  | tick (delta : ℚ)
  | activate (n : PName)
  | deactivate (n : PName)
  | deactivateAll
  | resetAll

/-- Apply one operation to a `PowerManager`. -/
def PMOp.apply (pm : PowerManager) : PMOp → PowerManager
  | PMOp.tick d => PowerManager.update d pm
  | PMOp.activate n => (pm.activatePower n).1
  | PMOp.deactivate n => pm.deactivatePower n
  | PMOp.deactivateAll => pm.deactivateAllPowers
  | PMOp.resetAll => pm.reset

/-- Run a sequence of operations from a given state. -/
def PowerManager.runFrom (pm : PowerManager) : List PMOp → PowerManager
  | [] => pm
  | op :: ops => PowerManager.runFrom (PMOp.apply pm op) ops

/-- Run a sequence of operations from the freshly constructed manager. -/
def PowerManager.run (ops : List PMOp) : PowerManager :=
  PowerManager.runFrom PowerManager.start ops

/-- The nonnegativity constraint a claim places on tick deltas. -/
def PMOp.nonnegDelta : PMOp → Prop
  | PMOp.tick d => 0 ≤ d
  | _ => True

/-- The pure function of the three active flags that
`updateTimeState` stores into `currentTimeState`. -/
def derivedState (pm : PowerManager) : TimeState :=
  if pm.freeze.active then TimeState.frozen
  else if pm.slow.active then TimeState.slow
  else if pm.speed.active then TimeState.fast
  else TimeState.normal

/-- The pure function of the three active flags that
`updateTimeState` stores into `timeMultiplier`. -/
def derivedMult (pm : PowerManager) : ℚ :=
  if pm.freeze.active then 0
  else if pm.slow.active then 1/2
  else if pm.speed.active then 2
  else 1

/-- The cached fields agree with the derived values. -/
def pmConsistent (pm : PowerManager) : Prop :=
  pm.currentTimeState = derivedState pm ∧ pm.timeMultiplier = derivedMult pm

/-- Number of powers whose active flag is set. -/
def activeCount (pm : PowerManager) : ℕ :=
  (if pm.freeze.active then 1 else 0) +
  (if pm.slow.active then 1 else 0) +
  (if pm.speed.active then 1 else 0)

/-- All six remaining-time fields are nonnegative. -/
def pmNonneg (pm : PowerManager) : Prop :=
  0 ≤ pm.freeze.duration ∧ 0 ≤ pm.freeze.cooldown ∧
  0 ≤ pm.slow.duration ∧ 0 ≤ pm.slow.cooldown ∧
  0 ≤ pm.speed.duration ∧ 0 ≤ pm.speed.cooldown

/-- The constant max fields keep their configured values. -/
def pmMaxes (pm : PowerManager) : Prop :=
  pm.freeze.maxDuration = FREEZE_DURATION ∧ pm.freeze.maxCooldown = FREEZE_COOLDOWN ∧
  pm.slow.maxDuration = SLOW_DURATION ∧ pm.slow.maxCooldown = SLOW_COOLDOWN ∧
  pm.speed.maxDuration = SPEED_DURATION ∧ pm.speed.maxCooldown = SPEED_COOLDOWN

/-- The `OBSTACLE_TYPES` enumeration from utils.js. -/
inductive OType
  | spike
  | debris
  | laser
deriving DecidableEq

/-- `Obstacle.setDimensionsByType` width (obstacles.js, lines 40-58). -/
def OType.typeWidth : OType → ℚ
  | OType.spike => 30
  | OType.debris => 50
  | OType.laser => 15

/-- `Obstacle.setDimensionsByType` height (obstacles.js, lines 40-58). -/
def OType.typeHeight : OType → ℚ
  | OType.spike => 80
  | OType.debris => 50
  | OType.laser => 120

/-- One obstacle (obstacles.js, `Obstacle` constructor, lines 10-35).
Colour, glow and the `Math.sin`-based pulse intensity are cosmetic
rendering state and are omitted; `animationTime`, which feeds them, is
kept because the constructor and `update` write it. -/
structure Obstacle where
  x : ℚ
  y : ℚ
  otype : OType
  width : ℚ
  height : ℚ
  speed : ℚ
  baseSpeed : ℚ
  animationTime : ℚ
  isActive : Bool
  hasBeenPassed : Bool
deriving DecidableEq

/-- `new Obstacle(x, y, type, speed)` (obstacles.js, lines 10-35). -/
def Obstacle.make (x y : ℚ) (t : OType) (speed : ℚ) : Obstacle :=
  { x := x, y := y, otype := t, width := t.typeWidth, height := t.typeHeight,
    speed := speed, baseSpeed := speed, animationTime := 0,
    isActive := true, hasBeenPassed := false }

/-- `Obstacle.update(deltaTime, speedMultiplier)` (obstacles.js, lines
82-104): advance the animation clock and move left by
`speed * speedMultiplier * (deltaTime / 1000)`; inactive obstacles are
untouched. -/
def Obstacle.update (delta mult : ℚ) (o : Obstacle) : Obstacle :=
  if o.isActive then
    { o with animationTime := o.animationTime + delta,
             x := o.x - o.speed * mult * (delta / 1000) }
  else o

/-- `Obstacle.isOffScreen` (obstacles.js, lines 251-253). -/
def Obstacle.isOffScreen (o : Obstacle) : Bool :=
  decide (o.x + o.width < 0)

/-- `Obstacle.hasPlayerPassed(playerX)` (obstacles.js, lines 260-265). -/
def Obstacle.hasPlayerPassed (playerX : ℚ) (o : Obstacle) : Bool :=
  !o.hasBeenPassed && decide (o.x + o.width < playerX)

/-- An axis-aligned rectangle, as produced by the `getBounds` methods. -/
structure Rect where
  x : ℚ
  y : ℚ
  width : ℚ
  height : ℚ

/-- `checkCollision(rect1, rect2)` (utils.js): AABB intersection. -/
def rectCollision (r1 r2 : Rect) : Bool :=
  decide (r1.x < r2.x + r2.width) && decide (r2.x < r1.x + r1.width) &&
  decide (r1.y < r2.y + r2.height) && decide (r2.y < r1.y + r1.height)

/-- `Obstacle.getBounds` (obstacles.js, lines 238-245). -/
def Obstacle.getBounds (o : Obstacle) : Rect :=
  { x := o.x, y := o.y, width := o.width, height := o.height }

/-- The `ObstacleManager` state (obstacles.js, lines 298-316). -/
structure ObstacleManager where
  obstacles : List Obstacle
  lastSpawnTime : ℚ
  spawnRate : ℚ
  minSpawnGap : ℚ
  difficultyLevel : ℤ
  baseSpawnRate : ℚ
  baseSpeed : ℚ
  totalSpawned : ℕ
  totalDestroyed : ℕ
deriving DecidableEq

/-- `ObstacleManager` constructor (obstacles.js, lines 299-316). -/
def ObstacleManager.start : ObstacleManager :=
  { obstacles := [], lastSpawnTime := 0, spawnRate := OBSTACLE_SPAWN_RATE,
    minSpawnGap := OBSTACLE_MIN_GAP, difficultyLevel := 0,
    baseSpawnRate := OBSTACLE_SPAWN_RATE, baseSpeed := OBSTACLE_MIN_SPEED,
    totalSpawned := 0, totalDestroyed := 0 }

/-- `ObstacleManager.updateSpawnRate` (obstacles.js, lines 345-351). -/
def ObstacleManager.updateSpawnRate (m : ObstacleManager) : ObstacleManager :=
  let r := max m.minSpawnGap (m.baseSpawnRate - (m.difficultyLevel : ℚ) * DIFFICULTY_SPAWN_DECREASE)
  { m with spawnRate := r }

/-- `ObstacleManager.spawnObstacle` (obstacles.js, lines 368-386).  The
random type and random y position are supplied as oracle arguments; the
spawn x is `CANVAS_WIDTH + 50` and the speed is
`baseSpeed + difficultyLevel * DIFFICULTY_SPEED_INCREASE * baseSpeed`. -/
def ObstacleManager.spawnObstacle (ty : OType) (yy : ℚ) (m : ObstacleManager) : ObstacleManager :=
  let speed := m.baseSpeed + (m.difficultyLevel : ℚ) * DIFFICULTY_SPEED_INCREASE * m.baseSpeed
  { m with obstacles := m.obstacles ++ [Obstacle.make (CANVAS_WIDTH + 50) yy ty speed],
           totalSpawned := m.totalSpawned + 1 }

/-- `ObstacleManager.handleSpawning(timeElapsed)` (obstacles.js, lines
357-363): spawn when `timeElapsed - lastSpawnTime >= spawnRate`. -/
def ObstacleManager.handleSpawning (ty : OType) (yy : ℚ) (timeElapsed : ℚ)
    (m : ObstacleManager) : ObstacleManager :=
  if m.spawnRate ≤ timeElapsed - m.lastSpawnTime then
    { m.spawnObstacle ty yy with lastSpawnTime := timeElapsed }
  else m

/-- `ObstacleManager.updateObstacles(deltaTime, speedMultiplier)`
(obstacles.js, lines 419-423). -/
def ObstacleManager.updateObstacles (delta mult : ℚ) (m : ObstacleManager) : ObstacleManager :=
  { m with obstacles := m.obstacles.map (Obstacle.update delta mult) }

/-- `ObstacleManager.removeOffscreenObstacles` (obstacles.js, lines
428-443): filter out off-screen obstacles, incrementing
`totalDestroyed` once per removed obstacle. -/
def ObstacleManager.removeOffscreenObstacles (m : ObstacleManager) : ObstacleManager :=
  let kept := m.obstacles.filter (fun o => !o.isOffScreen)
  { m with obstacles := kept,
           totalDestroyed := m.totalDestroyed + (m.obstacles.length - kept.length) }

/-- `ObstacleManager.update(deltaTime, timeElapsed, difficultyLevel,
speedMultiplier)` (obstacles.js, lines 325-340). -/
def ObstacleManager.update (delta timeElapsed : ℚ) (level : ℤ) (mult : ℚ)
    (ty : OType) (yy : ℚ) (m : ObstacleManager) : ObstacleManager :=
  let m1 := { m with difficultyLevel := level }
  let m2 := m1.updateSpawnRate
  let m3 := m2.handleSpawning ty yy timeElapsed
  let m4 := m3.updateObstacles delta mult
  m4.removeOffscreenObstacles

/-- `ObstacleManager.checkCollisions(player)` (obstacles.js, lines
460-471): first obstacle, in storage order, whose bounds intersect the
player bounds. -/
def ObstacleManager.checkCollisions (pb : Rect) (m : ObstacleManager) : Option Obstacle :=
  m.obstacles.find? (fun o => rectCollision pb o.getBounds)

/-- `ObstacleManager.checkObstaclesPassed(playerX)` (obstacles.js, lines
478-489): mark every newly passed obstacle and return the new manager
together with the number marked this call. -/
def ObstacleManager.checkObstaclesPassed (playerX : ℚ) (m : ObstacleManager) :
    ObstacleManager × ℕ :=
  ({ m with obstacles := m.obstacles.map (fun o =>
      if o.hasPlayerPassed playerX then { o with hasBeenPassed := true } else o) },
   (m.obstacles.filter (Obstacle.hasPlayerPassed playerX)).length)

/-- `ObstacleManager.reset` (obstacles.js, lines 510-519). -/
def ObstacleManager.reset (m : ObstacleManager) : ObstacleManager :=
  { m with obstacles := [], lastSpawnTime := 0, spawnRate := m.baseSpawnRate,
           difficultyLevel := 0, totalSpawned := 0, totalDestroyed := 0 }

/-- One externally triggerable `ObstacleManager` operation, with spawn
randomness supplied as oracle data. -/
inductive OMOp
  | upd (delta timeElapsed : ℚ) (level : ℤ) (mult : ℚ) (ty : OType) (yy : ℚ)
  | spawn (ty : OType) (yy : ℚ)
  | removeOff
  | resetAll

/-- Apply one operation to an `ObstacleManager`. -/
def OMOp.apply (m : ObstacleManager) : OMOp → ObstacleManager
  | OMOp.upd d te lv mu ty yy => m.update d te lv mu ty yy
  | OMOp.spawn ty yy => m.spawnObstacle ty yy
  | OMOp.removeOff => m.removeOffscreenObstacles
  | OMOp.resetAll => m.reset

/-- Run a sequence of operations from a given manager. -/
def ObstacleManager.runFrom (m : ObstacleManager) : List OMOp → ObstacleManager
  | [] => m
  | op :: ops => ObstacleManager.runFrom (OMOp.apply m op) ops

/-- Run a sequence of operations from the freshly constructed manager. -/
def ObstacleManager.run (ops : List OMOp) : ObstacleManager :=
  ObstacleManager.runFrom ObstacleManager.start ops

/-- The spawn/destroy counter identity: everything ever spawned is either
still in the collection or has been counted destroyed. -/
def omCounter (m : ObstacleManager) : Prop :=
  m.totalSpawned = m.totalDestroyed + m.obstacles.length

/-- The player (player.js, first unit, `Player` class).  Colour, glow and
pulse intensity are cosmetic and omitted. -/
structure PlayerS where
  x : ℚ
  y : ℚ
  width : ℚ
  height : ℚ
  speed : ℚ
  baseSpeed : ℚ
  animationTime : ℚ
  isActive : Bool
deriving DecidableEq

/-- `Player` constructor with the default `GAME_CONFIG` arguments
(player.js, lines 7-28). -/
def PlayerS.start : PlayerS :=
  { x := 100, y := 480, width := 40, height := 60,
    speed := 300, baseSpeed := 300, animationTime := 0, isActive := true }

/-- `Player.update(deltaTime, speedMultiplier)` (player.js, lines 35-50):
move right by `speed * speedMultiplier * (deltaTime/1000)` and clamp x to
`[50, CANVAS_WIDTH - width - 50]`. -/
def PlayerS.update (delta mult : ℚ) (p : PlayerS) : PlayerS :=
  if p.isActive then
    let x1 := p.x + p.speed * mult * (delta / 1000)
    { p with animationTime := p.animationTime + delta,
             x := min (max x1 50) (CANVAS_WIDTH - p.width - 50) }
  else p

/-- `Player.getBounds` (player.js, lines 132-139). -/
def PlayerS.getBounds (p : PlayerS) : Rect :=
  { x := p.x, y := p.y, width := p.width, height := p.height }

/-- The `GAME_STATES` enumeration from utils.js. -/
inductive GState
  | menu
  | playing
  | gameOver
deriving DecidableEq

/-- The fully implemented `Game` state (player.js, second unit,
constructor).  Rendering, HUD, input bookkeeping and particles are
presentation state and are omitted. -/
structure Game where
  state : GState
  score : ℚ
  timeElapsed : ℚ
  difficultyLevel : ℤ
  player : PlayerS
  om : ObstacleManager
  pm : PowerManager
deriving DecidableEq

/-- `Game.start()` on a freshly constructed game (player.js, second unit,
lines 418-438 with the systems from `initializeGameSystems`).  A
`restart()` resets every system and calls `start()`, producing this same
state. -/
def Game.startGame : Game :=
  { state := GState.playing, score := 0, timeElapsed := 0, difficultyLevel := 0,
    player := PlayerS.start, om := ObstacleManager.start, pm := PowerManager.start }

/-- `Game.updateDifficulty` (player.js, second unit, lines 547-579): the
level is raised to `floor(timeElapsed / DIFFICULTY_INTERVAL)` only when
that value exceeds the current level.  The particle effects, logging,
performance monitoring and the call to the placeholder-only
`updateDifficultyScaling` method are effect-free on the core state (the
fully implemented `ObstacleManager` receives the level through its
`update` arguments instead). -/
def Game.updateDifficulty (g : Game) : Game :=
  let newLevel : ℤ := ⌊g.timeElapsed / DIFFICULTY_INTERVAL⌋
  if g.difficultyLevel < newLevel then { g with difficultyLevel := newLevel } else g

/-- The score factor `currentTimeState === FAST ? 2.0 : 1.0` used by both
scoring sites (player.js, second unit, lines 531 and 612). -/
def scoreMultOf (pm : PowerManager) : ℚ :=
  if pm.currentTimeState = TimeState.fast then 2 else 1

/-- `Game.updateScore(deltaTime)` (player.js, second unit, lines
610-617): time-based score with the speed-power doubling. -/
def Game.updateScore (delta : ℚ) (g : Game) : Game :=
  { g with score := g.score + (delta / 1000) * SCORE_PER_SECOND * scoreMultOf g.pm }

/-- One frame's oracle data: the delta and the spawn randomness. -/
structure Step where
  delta : ℚ
  ty : OType
  yy : ℚ

/-- The system-update prefix of `Game.update(deltaTime)` (player.js,
second unit, lines 469-513): elapsed time, difficulty, time-based score,
then — with the multiplier captured from the power manager BEFORE its own
update — the power manager, the player (called without a multiplier
argument, so at multiplier 1) and the obstacle manager. -/
def Game.systemsUpdated (s : Step) (g : Game) : Game :=
  let g1 := { g with timeElapsed := g.timeElapsed + s.delta }
  let g2 := g1.updateDifficulty
  let g3 := Game.updateScore s.delta g2
  let mult := g3.pm.timeMultiplier
  let g4 := { g3 with pm := PowerManager.update s.delta g3.pm }
  let g5 := { g4 with player := g4.player.update s.delta 1 }
  { g5 with om := g5.om.update s.delta g5.timeElapsed g5.difficultyLevel mult s.ty s.yy }

/-- Whether this frame's collision check (player.js, second unit, lines
516-525) fires, evaluated on the post-advance positions. -/
def Game.collides (s : Step) (g : Game) : Bool :=
  let gs := Game.systemsUpdated s g
  (gs.om.checkCollisions gs.player.getBounds).isSome

/-- The number of obstacles newly passed this frame (player.js, second
unit, line 528). -/
def Game.passedNow (s : Step) (g : Game) : ℕ :=
  let gs := Game.systemsUpdated s g
  (gs.om.checkObstaclesPassed gs.player.x).2

/-- One full `Game.update(deltaTime)` call (player.js, second unit, lines
469-540).  Outside the playing state the call returns immediately.  The
speed-power score state is captured before the power manager update; a
collision ends the game for this frame; otherwise passed obstacles are
marked and the pass bonus, doubled during the speed power, is added. -/
def Game.step (s : Step) (g : Game) : Game :=
  if g.state = GState.playing then
    let ts := g.pm.currentTimeState
    let gs := Game.systemsUpdated s g
    if (gs.om.checkCollisions gs.player.getBounds).isSome then
      { gs with state := GState.gameOver }
    else
      let pr := gs.om.checkObstaclesPassed gs.player.x
      { gs with om := pr.1,
                score := gs.score + (pr.2 : ℚ) * SCORE_PER_OBSTACLE *
                  (if ts = TimeState.fast then 2 else 1) }
  else g

/-- Run a sequence of frames. -/
def Game.runSteps (g : Game) : List Step → Game
  | [] => g
  | s :: rest => Game.runSteps (Game.step s g) rest

/-- The game stays in the playing state after every frame of the list
(no collision ends the run early). -/
def Game.playingThrough : Game → List Step → Bool
  | g, [] => decide (g.state = GState.playing)
  | g, s :: rest =>
      decide (g.state = GState.playing) && Game.playingThrough (Game.step s g) rest

/-- The key handler for the freeze power while playing (player.js, second
unit, lines 392-396). -/
def Game.pressFreeze (g : Game) : Game :=
  if g.state = GState.playing then { g with pm := (g.pm.activateFreeze).1 } else g

/-- The reachable-state difficulty invariant: the level is exactly the
floor of elapsed time over the interval, and elapsed time is
nonnegative. -/
def gInv (g : Game) : Prop :=
  g.difficultyLevel = ⌊g.timeElapsed / DIFFICULTY_INTERVAL⌋ ∧ 0 ≤ g.timeElapsed

@[simp]
theorem updateTimeState_freeze (pm : PowerManager) :
    (pm.updateTimeState).freeze = pm.freeze := by
  unfold PowerManager.updateTimeState
  split_ifs <;> rfl

@[simp]
theorem updateTimeState_slow (pm : PowerManager) :
    (pm.updateTimeState).slow = pm.slow := by
  unfold PowerManager.updateTimeState
  split_ifs <;> rfl

@[simp]
theorem updateTimeState_speed (pm : PowerManager) :
    (pm.updateTimeState).speed = pm.speed := by
  unfold PowerManager.updateTimeState
  split_ifs <;> rfl

/-- `updateTimeState` establishes the cached-field consistency
unconditionally. -/
theorem updateTimeState_consistent (pm : PowerManager) :
    pmConsistent pm.updateTimeState := by
  unfold pmConsistent derivedState derivedMult PowerManager.updateTimeState
  cases hf : pm.freeze.active <;> cases hs : pm.slow.active <;>
    cases hp : pm.speed.active <;> simp [hf, hs, hp]

theorem deactivatePower_consistent (pm : PowerManager) (n : PName) :
    pmConsistent (pm.deactivatePower n) :=
  updateTimeState_consistent _

theorem deactivateAll_consistent (pm : PowerManager) (h : pmConsistent pm) :
    pmConsistent pm.deactivateAllPowers := by
  unfold PowerManager.deactivateAllPowers
  dsimp only
  split_ifs <;> first
    | exact h
    | exact updateTimeState_consistent _

theorem activatePower_consistent (pm : PowerManager) (n : PName) (h : pmConsistent pm) :
    pmConsistent (pm.activatePower n).1 := by
  unfold PowerManager.activatePower
  split_ifs
  · exact h
  · exact updateTimeState_consistent _

theorem reset_consistent (pm : PowerManager) : pmConsistent pm.reset := by
  unfold pmConsistent derivedState derivedMult PowerManager.reset
  simp

theorem update_consistent (d : ℚ) (pm : PowerManager) :
    pmConsistent (PowerManager.update d pm) :=
  updateTimeState_consistent _

theorem apply_consistent (op : PMOp) (pm : PowerManager) (h : pmConsistent pm) :
    pmConsistent (PMOp.apply pm op) := by
  cases op with
  | tick d => exact update_consistent d pm
  | activate n => exact activatePower_consistent pm n h
  | deactivate n => exact deactivatePower_consistent pm n
  | deactivateAll => exact deactivateAll_consistent pm h
  | resetAll => exact reset_consistent pm

/-- Preservation of a property along a run. -/
theorem runFrom_preserve (P : PowerManager → Prop)
    (hstep : ∀ pm op, P pm → P (PMOp.apply pm op)) :
    ∀ (ops : List PMOp) (pm : PowerManager), P pm → P (PowerManager.runFrom pm ops)
  | [], _, h => h
  | op :: ops, pm, h =>
      runFrom_preserve P hstep ops (PMOp.apply pm op) (hstep pm op h)

theorem start_consistent : pmConsistent PowerManager.start := by
  unfold pmConsistent derivedState derivedMult PowerManager.start
  simp

theorem run_consistent (ops : List PMOp) : pmConsistent (PowerManager.run ops) :=
  runFrom_preserve pmConsistent (fun pm op h => apply_consistent op pm h) ops
    PowerManager.start start_consistent

/-- Field-level characterisation of `deactivateAllPowers`: all active
flags are cleared, durations are zeroed exactly for the powers that were
active, and cooldowns and max fields are untouched. -/
theorem deactivateAll_spec (pm : PowerManager) :
    (pm.deactivateAllPowers).freeze.active = false ∧
    (pm.deactivateAllPowers).slow.active = false ∧
    (pm.deactivateAllPowers).speed.active = false ∧
    (pm.deactivateAllPowers).freeze.cooldown = pm.freeze.cooldown ∧
    (pm.deactivateAllPowers).slow.cooldown = pm.slow.cooldown ∧
    (pm.deactivateAllPowers).speed.cooldown = pm.speed.cooldown ∧
    (pm.deactivateAllPowers).freeze.duration
      = (if pm.freeze.active then 0 else pm.freeze.duration) ∧
    (pm.deactivateAllPowers).slow.duration
      = (if pm.slow.active then 0 else pm.slow.duration) ∧
    (pm.deactivateAllPowers).speed.duration
      = (if pm.speed.active then 0 else pm.speed.duration) ∧
    (pm.deactivateAllPowers).freeze.maxDuration = pm.freeze.maxDuration ∧
    (pm.deactivateAllPowers).freeze.maxCooldown = pm.freeze.maxCooldown ∧
    (pm.deactivateAllPowers).slow.maxDuration = pm.slow.maxDuration ∧
    (pm.deactivateAllPowers).slow.maxCooldown = pm.slow.maxCooldown ∧
    (pm.deactivateAllPowers).speed.maxDuration = pm.speed.maxDuration ∧
    (pm.deactivateAllPowers).speed.maxCooldown = pm.speed.maxCooldown := by
  unfold PowerManager.deactivateAllPowers PowerManager.deactivatePower
    PowerManager.setPower PowerManager.getPower
  dsimp only
  split_ifs <;> simp_all

/-- A successful activation starts the target power's full
duration/cooldown pair and leaves every other power inactive with its
cooldown untouched. -/
theorem activate_success_spec (pm : PowerManager) (n : PName)
    (h : pm.canActivatePower n = true) :
    (pm.activatePower n).2 = true ∧
    ((pm.activatePower n).1.getPower n).active = true ∧
    ((pm.activatePower n).1.getPower n).duration = (pm.getPower n).maxDuration ∧
    ((pm.activatePower n).1.getPower n).cooldown = (pm.getPower n).maxCooldown ∧
    ∀ b : PName, b ≠ n →
      ((pm.activatePower n).1.getPower b).active = false ∧
      ((pm.activatePower n).1.getPower b).cooldown = (pm.getPower b).cooldown := by
  obtain ⟨hf, hs, hp, hcf, hcs, hcp, hdf, hds, hdp, hm⟩ := deactivateAll_spec pm
  obtain ⟨hmdf, hmcf, hmds, hmcs, hmdp, hmcp⟩ := hm
  unfold PowerManager.activatePower
  rw [h]
  cases n with
  | freeze =>
      refine ⟨rfl, ?_, ?_, ?_, ?_⟩ <;>
        simp_all [PowerManager.getPower, PowerManager.setPower]
      intro b hb
      cases b <;> simp_all [PowerManager.getPower, PowerManager.setPower]
  | slow =>
      refine ⟨rfl, ?_, ?_, ?_, ?_⟩ <;>
        simp_all [PowerManager.getPower, PowerManager.setPower]
      intro b hb
      cases b <;> simp_all [PowerManager.getPower, PowerManager.setPower]
  | speed =>
      refine ⟨rfl, ?_, ?_, ?_, ?_⟩ <;>
        simp_all [PowerManager.getPower, PowerManager.setPower]
      intro b hb
      cases b <;> simp_all [PowerManager.getPower, PowerManager.setPower]

@[simp]
theorem tick_maxDuration (d : ℚ) (p : Power) :
    (Power.tick d p).maxDuration = p.maxDuration := by
  unfold Power.tick Power.tickCooldown Power.tickActive
  dsimp only
  split_ifs <;> rfl

@[simp]
theorem tick_maxCooldown (d : ℚ) (p : Power) :
    (Power.tick d p).maxCooldown = p.maxCooldown := by
  unfold Power.tick Power.tickCooldown Power.tickActive
  dsimp only
  split_ifs <;> rfl

/-- Ticking never turns a power on. -/
theorem tick_active_imp (d : ℚ) (p : Power) :
    (Power.tick d p).active = true → p.active = true := by
  unfold Power.tick Power.tickCooldown Power.tickActive
  dsimp only
  split_ifs <;> simp_all

/-- Ticking an inactive power leaves its flag and duration alone. -/
theorem tick_inactive (d : ℚ) (p : Power) (h : p.active = false) :
    (Power.tick d p).active = false ∧ (Power.tick d p).duration = p.duration := by
  unfold Power.tick Power.tickCooldown Power.tickActive
  dsimp only
  split_ifs <;> simp_all

/-- One tick keeps the remaining duration nonnegative. -/
theorem tick_duration_nonneg (d : ℚ) (p : Power) (h : 0 ≤ p.duration) :
    0 ≤ (Power.tick d p).duration := by
  unfold Power.tick Power.tickCooldown Power.tickActive
  dsimp only
  split_ifs <;> simp_all <;> linarith

/-- One tick keeps the remaining cooldown nonnegative. -/
theorem tick_cooldown_nonneg (d : ℚ) (p : Power) (h : 0 ≤ p.cooldown) :
    0 ≤ (Power.tick d p).cooldown := by
  unfold Power.tick Power.tickCooldown Power.tickActive
  dsimp only
  split_ifs <;> simp_all <;> linarith

theorem boolCountLe (a b : Bool) (h : a = true → b = true) :
    (if a then (1 : ℕ) else 0) ≤ if b then 1 else 0 := by
  cases a <;> cases b <;> simp_all

theorem activeCount_update_le (d : ℚ) (pm : PowerManager) :
    activeCount (PowerManager.update d pm) ≤ activeCount pm := by
  unfold activeCount PowerManager.update
  simp only [updateTimeState_freeze, updateTimeState_slow, updateTimeState_speed]
  exact Nat.add_le_add
    (Nat.add_le_add (boolCountLe _ _ (tick_active_imp d pm.freeze))
      (boolCountLe _ _ (tick_active_imp d pm.slow)))
    (boolCountLe _ _ (tick_active_imp d pm.speed))

theorem activeCount_deactivateAll (pm : PowerManager) :
    activeCount pm.deactivateAllPowers = 0 := by
  obtain ⟨hf, hs, hp, -⟩ := deactivateAll_spec pm
  unfold activeCount
  rw [hf, hs, hp]
  simp

theorem activeCount_apply (op : PMOp) (pm : PowerManager) (h : activeCount pm ≤ 1) :
    activeCount (PMOp.apply pm op) ≤ 1 := by
  cases op with
  | tick d => exact le_trans (activeCount_update_le d pm) h
  | activate n =>
      show activeCount (pm.activatePower n).1 ≤ 1
      unfold PowerManager.activatePower
      dsimp only
      split_ifs with hc
      · exact h
      · obtain ⟨hf, hs, hp, -⟩ := deactivateAll_spec pm
        cases n <;>
          · unfold activeCount
            simp [PowerManager.setPower, hf, hs, hp]
  | deactivate n =>
      show activeCount (pm.deactivatePower n) ≤ 1
      unfold PowerManager.deactivatePower
      cases n <;>
        · unfold activeCount at h ⊢
          simp only [PowerManager.setPower, PowerManager.getPower,
            updateTimeState_freeze, updateTimeState_slow, updateTimeState_speed]
          split_ifs at h ⊢ <;> simp_all
  | deactivateAll =>
      simp [PMOp.apply, activeCount_deactivateAll]
  | resetAll =>
      unfold PMOp.apply PowerManager.reset activeCount
      simp

theorem start_activeCount : activeCount PowerManager.start = 0 := by
  unfold activeCount PowerManager.start
  simp

/-- C3: after every PowerManager operation (update, any activation, any
deactivation, reset), `currentTimeState` and `timeMultiplier` are the pure
function of the three powers' active flags given by the precedence
Frozen > Slow > Fast > Normal with multipliers 0.0, 0.5, 2.0, 1.0; in
particular the multiplier is always one of 0, 1/2, 1, 2. -/
theorem C3_time_state_is_derived (ops : List PMOp) :
    (PowerManager.run ops).currentTimeState = derivedState (PowerManager.run ops) ∧
    (PowerManager.run ops).timeMultiplier = derivedMult (PowerManager.run ops) ∧
    ((PowerManager.run ops).timeMultiplier = 0 ∨
     (PowerManager.run ops).timeMultiplier = 1/2 ∨
     (PowerManager.run ops).timeMultiplier = 1 ∨
     (PowerManager.run ops).timeMultiplier = 2) := by
  obtain ⟨h1, h2⟩ := run_consistent ops
  refine ⟨h1, h2, ?_⟩
  rw [h2]
  unfold derivedMult
  split_ifs <;> simp

/-- C4: for every interleaving of tick/update calls and activation
requests (and also deactivations and resets) starting from the initial
PowerManager state, at most one of the three powers is active. -/
theorem C4_at_most_one_active (ops : List PMOp) :
    activeCount (PowerManager.run ops) ≤ 1 :=
  runFrom_preserve (fun pm => activeCount pm ≤ 1)
    (fun pm op h => activeCount_apply op pm h) ops PowerManager.start
    (le_of_eq_of_le start_activeCount (by norm_num))

theorem pmMaxes_apply (op : PMOp) (pm : PowerManager) (h : pmMaxes pm) :
    pmMaxes (PMOp.apply pm op) := by
  obtain ⟨hf, hs, hp, -, -, -, -, -, -, hmdf, hmcf, hmds, hmcs, hmdp, hmcp⟩ :=
    deactivateAll_spec pm
  cases op with
  | tick d =>
      show pmMaxes (PowerManager.update d pm)
      unfold pmMaxes at h ⊢
      unfold PowerManager.update
      simpa using h
  | activate n =>
      show pmMaxes (pm.activatePower n).1
      unfold PowerManager.activatePower
      dsimp only
      split_ifs
      · exact h
      · unfold pmMaxes at h ⊢
        cases n <;> simp_all [PowerManager.setPower, PowerManager.getPower]
  | deactivate n =>
      show pmMaxes (pm.deactivatePower n)
      unfold pmMaxes at h ⊢
      unfold PowerManager.deactivatePower
      cases n <;> simp_all [PowerManager.setPower, PowerManager.getPower]
  | deactivateAll =>
      show pmMaxes pm.deactivateAllPowers
      unfold pmMaxes at h ⊢
      simp_all
  | resetAll =>
      show pmMaxes pm.reset
      unfold pmMaxes at h ⊢
      unfold PowerManager.reset
      simp_all

theorem pmNonneg_apply (op : PMOp) (pm : PowerManager)
    (hn : pmNonneg pm) (hm : pmMaxes pm) : pmNonneg (PMOp.apply pm op) := by
  obtain ⟨h1, h2, h3, h4, h5, h6⟩ := hn
  obtain ⟨hmdf, hmcf, hmds, hmcs, hmdp, hmcp⟩ := hm
  obtain ⟨hf, hs, hp, hcf, hcs, hcp, hdf, hds, hdp, hmx⟩ := deactivateAll_spec pm
  cases op with
  | tick d =>
      show pmNonneg (PowerManager.update d pm)
      unfold pmNonneg PowerManager.update
      simp only [updateTimeState_freeze, updateTimeState_slow, updateTimeState_speed]
      refine ⟨tick_duration_nonneg d pm.freeze h1, tick_cooldown_nonneg d pm.freeze h2,
        tick_duration_nonneg d pm.slow h3, tick_cooldown_nonneg d pm.slow h4,
        tick_duration_nonneg d pm.speed h5, tick_cooldown_nonneg d pm.speed h6⟩
  | activate n =>
      show pmNonneg (pm.activatePower n).1
      unfold PowerManager.activatePower
      dsimp only
      split_ifs
      · exact ⟨h1, h2, h3, h4, h5, h6⟩
      · unfold pmNonneg
        cases n <;>
          · simp_all [PowerManager.setPower, PowerManager.getPower,
              FREEZE_DURATION, FREEZE_COOLDOWN, SLOW_DURATION, SLOW_COOLDOWN,
              SPEED_DURATION, SPEED_COOLDOWN]
            split_ifs <;> simp_all
  | deactivate n =>
      show pmNonneg (pm.deactivatePower n)
      unfold pmNonneg PowerManager.deactivatePower
      cases n <;> simp_all [PowerManager.setPower, PowerManager.getPower]
  | deactivateAll =>
      show pmNonneg pm.deactivateAllPowers
      unfold pmNonneg
      refine ⟨?_, ?_, ?_, ?_, ?_, ?_⟩ <;> simp_all <;> split_ifs <;> simp_all
  | resetAll =>
      show pmNonneg pm.reset
      unfold pmNonneg PowerManager.reset
      simp


/-- C7: for every sequence of update calls with nonnegative deltas
interleaved with activation requests (and any other PowerManager
operation), every power's remaining duration and remaining cooldown stay
nonnegative. -/
theorem C7_remaining_times_nonneg (ops : List PMOp)
    (_h : ∀ op ∈ ops, PMOp.nonnegDelta op) :
    pmNonneg (PowerManager.run ops) :=
  (runFrom_preserve (fun pm => pmNonneg pm ∧ pmMaxes pm)
    (fun pm op hh => ⟨pmNonneg_apply op pm hh.1 hh.2, pmMaxes_apply op pm hh.2⟩)
    ops PowerManager.start
    (by constructor <;> simp [pmNonneg, pmMaxes, PowerManager.start])).1

/-- Witness for C7 at a concrete operation sequence. -/
theorem C7_witness :
    (∀ op ∈ [PMOp.activate PName.freeze, PMOp.tick 500, PMOp.activate PName.slow,
      PMOp.tick 4000], PMOp.nonnegDelta op) ∧
    pmNonneg (PowerManager.run [PMOp.activate PName.freeze, PMOp.tick 500,
      PMOp.activate PName.slow, PMOp.tick 4000]) := by
  have hops : ∀ op ∈ [PMOp.activate PName.freeze, PMOp.tick 500,
      PMOp.activate PName.slow, PMOp.tick 4000], PMOp.nonnegDelta op := by
    intro op hop
    simp only [List.mem_cons, List.not_mem_nil, or_false] at hop
    rcases hop with h | h | h | h <;> subst h <;> unfold PMOp.nonnegDelta <;> norm_num
  exact ⟨hops, C7_remaining_times_nonneg _ hops⟩

/-- C6: an activation request returns true exactly when the power is not
active and its remaining cooldown is at most 0; when it returns false the
whole PowerManager, including every power field and the derived state, is
unchanged (a pure no-op with a boolean result). -/
theorem C6_failed_activation_is_noop (pm : PowerManager) (n : PName) :
    ((pm.activatePower n).2 = true ↔
      ((pm.getPower n).active = false ∧ (pm.getPower n).cooldown ≤ 0)) ∧
    ((pm.activatePower n).2 = false → (pm.activatePower n).1 = pm) := by
  have hiff : pm.canActivatePower n = true ↔
      ((pm.getPower n).active = false ∧ (pm.getPower n).cooldown ≤ 0) := by
    unfold PowerManager.canActivatePower
    cases ha : (pm.getPower n).active <;> simp [ha]
  unfold PowerManager.activatePower
  dsimp only
  split_ifs with hc
  · rw [Bool.not_eq_true'] at hc
    refine ⟨?_, fun _ => rfl⟩
    constructor
    · intro h2
      exact absurd h2 (by simp)
    · intro hrhs
      exact absurd (hiff.mpr hrhs) (by simp [hc])
  · simp only [Bool.not_eq_true, Bool.not_eq_false, Bool.not_eq_true'] at hc
    refine ⟨⟨fun _ => hiff.mp hc, fun _ => rfl⟩, ?_⟩
    intro hfalse
    exact absurd hfalse (by simp)

/-- Witness for C6: on the freshly constructed manager a freeze request
succeeds, and after it a second freeze request fails and changes
nothing. -/
theorem C6_witness :
    (((PowerManager.start.activatePower PName.freeze).2 = true ↔
       ((PowerManager.start.getPower PName.freeze).active = false ∧
        (PowerManager.start.getPower PName.freeze).cooldown ≤ 0)) ∧
     ((PowerManager.start.activatePower PName.freeze).2 = false →
       (PowerManager.start.activatePower PName.freeze).1 = PowerManager.start)) :=
  C6_failed_activation_is_noop PowerManager.start PName.freeze

/-- C5: if ability `a` is successfully activated while ability `b` is
active, then afterwards `b` is inactive, `b`'s remaining cooldown is
exactly what it was before the call, and `a`'s remaining duration and
cooldown equal its full `maxDuration` / `maxCooldown`. -/
theorem C5_switch_preserves_cooldown (pm : PowerManager) (a b : PName)
    (hab : b ≠ a)
    (_hb : (pm.getPower b).active = true)
    (ha : pm.canActivatePower a = true) :
    (pm.activatePower a).2 = true ∧
    ((pm.activatePower a).1.getPower b).active = false ∧
    ((pm.activatePower a).1.getPower b).cooldown = (pm.getPower b).cooldown ∧
    ((pm.activatePower a).1.getPower a).duration = (pm.getPower a).maxDuration ∧
    ((pm.activatePower a).1.getPower a).cooldown = (pm.getPower a).maxCooldown := by
  obtain ⟨h1, h2, h3, h4, h5⟩ := activate_success_spec pm a ha
  exact ⟨h1, (h5 b hab).1, (h5 b hab).2, h3, h4⟩

/-- Witness for C5: activate Slow while Freeze is active and midway
through its cooldown; Freeze is switched off, its cooldown of 4000 is kept,
and Slow starts with its full 3000/4000 pair. -/
theorem C5_witness :
    (PName.freeze ≠ PName.slow ∧
     ((PowerManager.runFrom PowerManager.start
        [PMOp.activate PName.freeze, PMOp.tick 1000]).getPower PName.freeze).active = true ∧
     (PowerManager.runFrom PowerManager.start
        [PMOp.activate PName.freeze, PMOp.tick 1000]).canActivatePower PName.slow = true) ∧
    (((PowerManager.runFrom PowerManager.start
        [PMOp.activate PName.freeze, PMOp.tick 1000]).activatePower PName.slow).2 = true ∧
     (((PowerManager.runFrom PowerManager.start
        [PMOp.activate PName.freeze, PMOp.tick 1000]).activatePower
          PName.slow).1.getPower PName.freeze).active = false ∧
     (((PowerManager.runFrom PowerManager.start
        [PMOp.activate PName.freeze, PMOp.tick 1000]).activatePower
          PName.slow).1.getPower PName.freeze).cooldown =
       ((PowerManager.runFrom PowerManager.start
        [PMOp.activate PName.freeze, PMOp.tick 1000]).getPower PName.freeze).cooldown ∧
     (((PowerManager.runFrom PowerManager.start
        [PMOp.activate PName.freeze, PMOp.tick 1000]).activatePower
          PName.slow).1.getPower PName.slow).duration =
       ((PowerManager.runFrom PowerManager.start
        [PMOp.activate PName.freeze, PMOp.tick 1000]).getPower PName.slow).maxDuration ∧
     (((PowerManager.runFrom PowerManager.start
        [PMOp.activate PName.freeze, PMOp.tick 1000]).activatePower
          PName.slow).1.getPower PName.slow).cooldown =
       ((PowerManager.runFrom PowerManager.start
        [PMOp.activate PName.freeze, PMOp.tick 1000]).getPower PName.slow).maxCooldown) :=
  ⟨⟨by decide,
    by norm_num [PowerManager.runFrom, PMOp.apply, PowerManager.activatePower,
      PowerManager.canActivatePower, PowerManager.deactivateAllPowers,
      PowerManager.deactivatePower, PowerManager.setPower, PowerManager.getPower,
      PowerManager.updateTimeState, PowerManager.update, Power.tick,
      Power.tickActive, Power.tickCooldown, PowerManager.start,
      FREEZE_DURATION, FREEZE_COOLDOWN, SLOW_DURATION, SLOW_COOLDOWN,
      SPEED_DURATION, SPEED_COOLDOWN],
    by norm_num [PowerManager.runFrom, PMOp.apply, PowerManager.activatePower,
      PowerManager.canActivatePower, PowerManager.deactivateAllPowers,
      PowerManager.deactivatePower, PowerManager.setPower, PowerManager.getPower,
      PowerManager.updateTimeState, PowerManager.update, Power.tick,
      Power.tickActive, Power.tickCooldown, PowerManager.start,
      FREEZE_DURATION, FREEZE_COOLDOWN, SLOW_DURATION, SLOW_COOLDOWN,
      SPEED_DURATION, SPEED_COOLDOWN]⟩,
   C5_switch_preserves_cooldown _ PName.slow PName.freeze (by decide)
     (by norm_num [PowerManager.runFrom, PMOp.apply, PowerManager.activatePower,
       PowerManager.canActivatePower, PowerManager.deactivateAllPowers,
       PowerManager.deactivatePower, PowerManager.setPower, PowerManager.getPower,
       PowerManager.updateTimeState, PowerManager.update, Power.tick,
       Power.tickActive, Power.tickCooldown, PowerManager.start,
       FREEZE_DURATION, FREEZE_COOLDOWN, SLOW_DURATION, SLOW_COOLDOWN,
       SPEED_DURATION, SPEED_COOLDOWN])
     (by norm_num [PowerManager.runFrom, PMOp.apply, PowerManager.activatePower,
       PowerManager.canActivatePower, PowerManager.deactivateAllPowers,
       PowerManager.deactivatePower, PowerManager.setPower, PowerManager.getPower,
       PowerManager.updateTimeState, PowerManager.update, Power.tick,
       Power.tickActive, Power.tickCooldown, PowerManager.start,
       FREEZE_DURATION, FREEZE_COOLDOWN, SLOW_DURATION, SLOW_COOLDOWN,
       SPEED_DURATION, SPEED_COOLDOWN])⟩

/-- C8 evaluation: the code does NOT clamp negative deltas.  After
activating Freeze (duration 2000, cooldown 5000), an update with
deltaMs = -100 extends the remaining duration to 2100 and the cooldown to
5100, while a zero-delta update leaves them at 2000/5000; at the game
level the -100 frame rewinds `timeElapsed` to -100 and the score to
-1/10, where a zero frame leaves both at 0.  This refutes the claimed
behave-as-zero clamping. -/
theorem C8_negative_delta_propagates :
    (PowerManager.update (-100) (PowerManager.start.activateFreeze).1).freeze.duration = 2100 ∧
    (PowerManager.update (-100) (PowerManager.start.activateFreeze).1).freeze.cooldown = 5100 ∧
    (PowerManager.update 0 (PowerManager.start.activateFreeze).1).freeze.duration = 2000 ∧
    (PowerManager.update 0 (PowerManager.start.activateFreeze).1).freeze.cooldown = 5000 ∧
    (Game.step { delta := -100, ty := OType.spike, yy := 300 }
        { Game.startGame with pm := (PowerManager.start.activateFreeze).1 }).timeElapsed
      = -100 ∧
    (Game.step { delta := -100, ty := OType.spike, yy := 300 }
        { Game.startGame with pm := (PowerManager.start.activateFreeze).1 }).score
      = -(1/10) ∧
    (Game.step { delta := 0, ty := OType.spike, yy := 300 }
        { Game.startGame with pm := (PowerManager.start.activateFreeze).1 }).timeElapsed
      = 0 ∧
    (Game.step { delta := 0, ty := OType.spike, yy := 300 }
        { Game.startGame with pm := (PowerManager.start.activateFreeze).1 }).score
      = 0 := by
  norm_num [Game.step, Game.systemsUpdated, Game.updateDifficulty, Game.updateScore,
    scoreMultOf, Game.startGame, PlayerS.update, PlayerS.start, PlayerS.getBounds,
    ObstacleManager.update, ObstacleManager.updateSpawnRate,
    ObstacleManager.handleSpawning, ObstacleManager.spawnObstacle,
    ObstacleManager.updateObstacles, ObstacleManager.removeOffscreenObstacles,
    ObstacleManager.checkCollisions, ObstacleManager.checkObstaclesPassed,
    ObstacleManager.start, Obstacle.make, Obstacle.update, Obstacle.isOffScreen,
    Obstacle.hasPlayerPassed, Obstacle.getBounds, rectCollision,
    OType.typeWidth, OType.typeHeight,
    PowerManager.update, PowerManager.updateTimeState, Power.tick,
    Power.tickActive, Power.tickCooldown, PowerManager.activateFreeze,
    PowerManager.activatePower, PowerManager.canActivatePower,
    PowerManager.deactivateAllPowers, PowerManager.deactivatePower,
    PowerManager.setPower, PowerManager.getPower, PowerManager.start,
    FREEZE_DURATION, FREEZE_COOLDOWN, SLOW_DURATION, SLOW_COOLDOWN,
    SPEED_DURATION, SPEED_COOLDOWN, SCORE_PER_SECOND, SCORE_PER_OBSTACLE,
    DIFFICULTY_INTERVAL, DIFFICULTY_SPEED_INCREASE, DIFFICULTY_SPAWN_DECREASE,
    OBSTACLE_SPAWN_RATE, OBSTACLE_MIN_GAP, OBSTACLE_MIN_SPEED, CANVAS_WIDTH]
  decide

@[simp]
theorem updateDifficulty_state (g : Game) : (Game.updateDifficulty g).state = g.state := by
  unfold Game.updateDifficulty
  dsimp only
  split_ifs <;> rfl

@[simp]
theorem updateDifficulty_score (g : Game) : (Game.updateDifficulty g).score = g.score := by
  unfold Game.updateDifficulty
  dsimp only
  split_ifs <;> rfl

@[simp]
theorem updateDifficulty_timeElapsed (g : Game) :
    (Game.updateDifficulty g).timeElapsed = g.timeElapsed := by
  unfold Game.updateDifficulty
  dsimp only
  split_ifs <;> rfl

@[simp]
theorem updateDifficulty_pm (g : Game) : (Game.updateDifficulty g).pm = g.pm := by
  unfold Game.updateDifficulty
  dsimp only
  split_ifs <;> rfl

@[simp]
theorem updateDifficulty_om (g : Game) : (Game.updateDifficulty g).om = g.om := by
  unfold Game.updateDifficulty
  dsimp only
  split_ifs <;> rfl

@[simp]
theorem updateDifficulty_player (g : Game) : (Game.updateDifficulty g).player = g.player := by
  unfold Game.updateDifficulty
  dsimp only
  split_ifs <;> rfl

/-- `updateDifficulty` takes the maximum of the current level and the
freshly derived floor. -/
theorem updateDifficulty_level (g : Game) :
    (Game.updateDifficulty g).difficultyLevel
      = max g.difficultyLevel ⌊g.timeElapsed / DIFFICULTY_INTERVAL⌋ := by
  unfold Game.updateDifficulty
  dsimp only
  split_ifs with h
  · dsimp only
    omega
  · omega

theorem systemsUpdated_state (s : Step) (g : Game) :
    (Game.systemsUpdated s g).state = g.state := by
  unfold Game.systemsUpdated Game.updateScore
  simp

theorem systemsUpdated_timeElapsed (s : Step) (g : Game) :
    (Game.systemsUpdated s g).timeElapsed = g.timeElapsed + s.delta := by
  unfold Game.systemsUpdated Game.updateScore
  simp

theorem systemsUpdated_level (s : Step) (g : Game) :
    (Game.systemsUpdated s g).difficultyLevel
      = max g.difficultyLevel ⌊(g.timeElapsed + s.delta) / DIFFICULTY_INTERVAL⌋ := by
  unfold Game.systemsUpdated Game.updateScore
  simp [updateDifficulty_level]

theorem systemsUpdated_pm (s : Step) (g : Game) :
    (Game.systemsUpdated s g).pm = PowerManager.update s.delta g.pm := by
  unfold Game.systemsUpdated Game.updateScore
  simp

theorem systemsUpdated_score (s : Step) (g : Game) :
    (Game.systemsUpdated s g).score
      = g.score + (s.delta / 1000) * SCORE_PER_SECOND * scoreMultOf g.pm := by
  unfold Game.systemsUpdated Game.updateScore
  simp

theorem systemsUpdated_player (s : Step) (g : Game) :
    (Game.systemsUpdated s g).player = g.player.update s.delta 1 := by
  unfold Game.systemsUpdated Game.updateScore
  simp

theorem step_not_playing (s : Step) (g : Game) (h : ¬ g.state = GState.playing) :
    Game.step s g = g := by
  unfold Game.step
  rw [if_neg h]

theorem step_state (s : Step) (g : Game) (h : g.state = GState.playing) :
    (Game.step s g).state
      = if Game.collides s g then GState.gameOver else GState.playing := by
  unfold Game.step Game.collides
  rw [if_pos h]
  dsimp only
  split_ifs <;> simp [systemsUpdated_state, h]

theorem step_pm (s : Step) (g : Game) (h : g.state = GState.playing) :
    (Game.step s g).pm = PowerManager.update s.delta g.pm := by
  unfold Game.step
  rw [if_pos h]
  dsimp only
  split_ifs <;> simp [systemsUpdated_pm]

theorem step_timeElapsed (s : Step) (g : Game) (h : g.state = GState.playing) :
    (Game.step s g).timeElapsed = g.timeElapsed + s.delta := by
  unfold Game.step
  rw [if_pos h]
  dsimp only
  split_ifs <;> simp [systemsUpdated_timeElapsed]

theorem step_level (s : Step) (g : Game) (h : g.state = GState.playing) :
    (Game.step s g).difficultyLevel
      = max g.difficultyLevel ⌊(g.timeElapsed + s.delta) / DIFFICULTY_INTERVAL⌋ := by
  unfold Game.step
  rw [if_pos h]
  dsimp only
  split_ifs <;> simp [systemsUpdated_level]

theorem step_score (s : Step) (g : Game) (h : g.state = GState.playing) :
    (Game.step s g).score
      = g.score + (s.delta / 1000) * SCORE_PER_SECOND * scoreMultOf g.pm
        + (if Game.collides s g then 0
           else (Game.passedNow s g : ℚ) * SCORE_PER_OBSTACLE * scoreMultOf g.pm) := by
  unfold Game.step Game.collides Game.passedNow
  rw [if_pos h]
  dsimp only
  have hmult : (if g.pm.currentTimeState = TimeState.fast then (2 : ℚ) else 1)
      = scoreMultOf g.pm := rfl
  by_cases hc : (ObstacleManager.checkCollisions
      (Game.systemsUpdated s g).player.getBounds (Game.systemsUpdated s g).om).isSome = true
  · rw [if_pos hc, if_pos hc]
    simp [systemsUpdated_score]
  · rw [if_neg hc, if_neg hc]
    dsimp only
    rw [systemsUpdated_score]
    rw [hmult]
    try ring

/-- Under the reachable-state invariants, the score factor is 2 exactly
when the speed power is active. -/
theorem scoreMult_speed (pm : PowerManager) (hc : pmConsistent pm)
    (he : activeCount pm ≤ 1) :
    scoreMultOf pm = if pm.speed.active then 2 else 1 := by
  obtain ⟨h1, -⟩ := hc
  unfold scoreMultOf
  rw [h1]
  unfold derivedState
  cases hf : pm.freeze.active <;> cases hs : pm.slow.active <;>
    cases hp : pm.speed.active <;> simp_all [activeCount]

/-- C2: while the Speed power is active every score gain is doubled — a
tick of deltaMs adds `(deltaMs/1000) * 1 * 2` points and each hazard
passed adds `5 * 2 = 10`; when Speed is not active the factors are
`(deltaMs/1000) * 1` and `5`.  (If the frame detects a collision the
pass bonus of that frame is not awarded, matching the early return.) -/
theorem C2_speed_doubles_score (s : Step) (g : Game)
    (hplay : g.state = GState.playing)
    (hcons : pmConsistent g.pm)
    (hexcl : activeCount g.pm ≤ 1) :
    (Game.step s g).score
      = g.score
        + (s.delta / 1000) * SCORE_PER_SECOND * (if g.pm.speed.active then 2 else 1)
        + (if Game.collides s g then 0
           else (Game.passedNow s g : ℚ) * SCORE_PER_OBSTACLE
                * (if g.pm.speed.active then 2 else 1)) := by
  rw [step_score s g hplay, scoreMult_speed g.pm hcons hexcl]

/-- Witness for C2: from a fresh game with Speed just activated, one
1000ms frame with no obstacles yields score `(1000/1000) * 1 * 2 = 2`. -/
theorem C2_witness :
    (({ Game.startGame with pm := (PowerManager.start.activateSpeed).1 } : Game).state
        = GState.playing ∧
     pmConsistent (PowerManager.start.activateSpeed).1 ∧
     activeCount (PowerManager.start.activateSpeed).1 ≤ 1) ∧
    (Game.step { delta := 1000, ty := OType.spike, yy := 300 }
        { Game.startGame with pm := (PowerManager.start.activateSpeed).1 }).score
      = ({ Game.startGame with pm := (PowerManager.start.activateSpeed).1 } : Game).score
        + ((1000 : ℚ) / 1000) * SCORE_PER_SECOND
          * (if ((PowerManager.start.activateSpeed).1).speed.active then 2 else 1)
        + (if Game.collides { delta := 1000, ty := OType.spike, yy := 300 }
               { Game.startGame with pm := (PowerManager.start.activateSpeed).1 } then 0
           else (Game.passedNow { delta := 1000, ty := OType.spike, yy := 300 }
               { Game.startGame with pm := (PowerManager.start.activateSpeed).1 } : ℚ)
             * SCORE_PER_OBSTACLE
             * (if ((PowerManager.start.activateSpeed).1).speed.active then 2 else 1)) := by
  have h1 : ({ Game.startGame with pm := (PowerManager.start.activateSpeed).1 } : Game).state
      = GState.playing := rfl
  have h2 : pmConsistent (PowerManager.start.activateSpeed).1 := by
    unfold pmConsistent derivedState derivedMult
    norm_num [PowerManager.activateSpeed, PowerManager.activatePower,
      PowerManager.canActivatePower, PowerManager.deactivateAllPowers,
      PowerManager.deactivatePower, PowerManager.setPower, PowerManager.getPower,
      PowerManager.updateTimeState, PowerManager.start,
      FREEZE_DURATION, FREEZE_COOLDOWN, SLOW_DURATION, SLOW_COOLDOWN,
      SPEED_DURATION, SPEED_COOLDOWN]
  have h3 : activeCount (PowerManager.start.activateSpeed).1 ≤ 1 := by
    unfold activeCount
    norm_num [PowerManager.activateSpeed, PowerManager.activatePower,
      PowerManager.canActivatePower, PowerManager.deactivateAllPowers,
      PowerManager.deactivatePower, PowerManager.setPower, PowerManager.getPower,
      PowerManager.updateTimeState, PowerManager.start,
      FREEZE_DURATION, FREEZE_COOLDOWN, SLOW_DURATION, SLOW_COOLDOWN,
      SPEED_DURATION, SPEED_COOLDOWN]
  exact ⟨⟨h1, h2, h3⟩,
    C2_speed_doubles_score { delta := 1000, ty := OType.spike, yy := 300 }
      { Game.startGame with pm := (PowerManager.start.activateSpeed).1 } h1 h2 h3⟩

theorem runSteps_append (l1 l2 : List Step) :
    ∀ g : Game, Game.runSteps g (l1 ++ l2) = Game.runSteps (Game.runSteps g l1) l2 := by
  induction l1 with
  | nil => intro g; rfl
  | cons s rest ih => intro g; simp [Game.runSteps, ih]

theorem step_level_mono (s : Step) (g : Game) :
    g.difficultyLevel ≤ (Game.step s g).difficultyLevel := by
  by_cases h : g.state = GState.playing
  · rw [step_level s g h]
    exact le_max_left _ _
  · rw [step_not_playing s g h]

theorem runSteps_level_mono :
    ∀ (l : List Step) (g : Game),
      g.difficultyLevel ≤ (Game.runSteps g l).difficultyLevel
  | [], _ => le_refl _
  | s :: rest, g =>
      le_trans (step_level_mono s g) (runSteps_level_mono rest (Game.step s g))


theorem gInv_step (s : Step) (g : Game) (hd : 0 ≤ s.delta) (h : gInv g) :
    gInv (Game.step s g) := by
  obtain ⟨h1, h2⟩ := h
  by_cases hp : g.state = GState.playing
  · constructor
    · rw [step_level s g hp, step_timeElapsed s g hp, h1]
      have hmono : ⌊g.timeElapsed / DIFFICULTY_INTERVAL⌋
          ≤ ⌊(g.timeElapsed + s.delta) / DIFFICULTY_INTERVAL⌋ := by
        gcongr
        · norm_num [DIFFICULTY_INTERVAL]
        · linarith
      omega
    · rw [step_timeElapsed s g hp]
      linarith
  · rw [step_not_playing s g hp]
    exact ⟨h1, h2⟩

theorem gInv_run :
    ∀ (l : List Step), (∀ s ∈ l, 0 ≤ s.delta) →
      ∀ g : Game, gInv g → gInv (Game.runSteps g l)
  | [], _, _, hg => hg
  | s :: rest, h, g, hg =>
      gInv_run rest (fun x hx => h x (List.mem_cons_of_mem s hx)) (Game.step s g)
        (gInv_step s g (h s (List.mem_cons_self s rest)) hg)

theorem startGame_gInv : gInv Game.startGame := by
  unfold gInv Game.startGame
  norm_num

/-- C9: for every sequence of updates with nonnegative deltas since the
start (or restart), after each prefix of the run the difficulty level
equals `floor(timeElapsed / 20000)`, and the level is monotonically
non-decreasing along the run. -/
theorem C9_difficulty_is_floor (steps : List Step) (m n : ℕ) (hmn : m ≤ n)
    (h : ∀ s ∈ steps, 0 ≤ s.delta) :
    (Game.runSteps Game.startGame (steps.take n)).difficultyLevel
      = ⌊(Game.runSteps Game.startGame (steps.take n)).timeElapsed / DIFFICULTY_INTERVAL⌋ ∧
    (Game.runSteps Game.startGame (steps.take m)).difficultyLevel
      ≤ (Game.runSteps Game.startGame (steps.take n)).difficultyLevel := by
  constructor
  · exact (gInv_run (steps.take n)
      (fun x hx => h x (List.mem_of_mem_take hx)) Game.startGame startGame_gInv).1
  · have hsplit : steps.take m ++ (steps.take n).drop m = steps.take n := by
      have := List.take_append_drop m (steps.take n)
      rw [List.take_take, min_eq_left hmn] at this
      exact this
    calc (Game.runSteps Game.startGame (steps.take m)).difficultyLevel
        ≤ (Game.runSteps (Game.runSteps Game.startGame (steps.take m))
            ((steps.take n).drop m)).difficultyLevel :=
          runSteps_level_mono _ _
      _ = (Game.runSteps Game.startGame
            (steps.take m ++ (steps.take n).drop m)).difficultyLevel := by
          rw [runSteps_append]
      _ = (Game.runSteps Game.startGame (steps.take n)).difficultyLevel := by
          rw [hsplit]

/-- Witness for C9: with frames of 20000ms and 1000ms, after the first
frame the level is 1 and it does not decrease on the second. -/
theorem C9_witness :
    ((1 : ℕ) ≤ 2 ∧
     (∀ s ∈ [({ delta := 20000, ty := OType.spike, yy := 300 } : Step),
              { delta := 1000, ty := OType.debris, yy := 250 }], 0 ≤ s.delta)) ∧
    ((Game.runSteps Game.startGame
        ([({ delta := 20000, ty := OType.spike, yy := 300 } : Step),
          { delta := 1000, ty := OType.debris, yy := 250 }].take 2)).difficultyLevel
      = ⌊(Game.runSteps Game.startGame
          ([({ delta := 20000, ty := OType.spike, yy := 300 } : Step),
            { delta := 1000, ty := OType.debris, yy := 250 }].take 2)).timeElapsed
          / DIFFICULTY_INTERVAL⌋ ∧
     (Game.runSteps Game.startGame
        ([({ delta := 20000, ty := OType.spike, yy := 300 } : Step),
          { delta := 1000, ty := OType.debris, yy := 250 }].take 1)).difficultyLevel
      ≤ (Game.runSteps Game.startGame
          ([({ delta := 20000, ty := OType.spike, yy := 300 } : Step),
            { delta := 1000, ty := OType.debris, yy := 250 }].take 2)).difficultyLevel) := by
  have hd : ∀ s ∈ [({ delta := 20000, ty := OType.spike, yy := 300 } : Step),
      { delta := 1000, ty := OType.debris, yy := 250 }], 0 ≤ s.delta := by
    intro s hs
    fin_cases hs <;> norm_num
  exact ⟨⟨by norm_num, hd⟩, C9_difficulty_is_floor _ 1 2 (by norm_num) hd⟩

theorem omCounter_spawn (ty : OType) (yy : ℚ) (m : ObstacleManager)
    (h : omCounter m) : omCounter (m.spawnObstacle ty yy) := by
  unfold omCounter ObstacleManager.spawnObstacle at *
  simp
  omega

theorem omCounter_removeOff (m : ObstacleManager) (h : omCounter m) :
    omCounter m.removeOffscreenObstacles := by
  unfold omCounter ObstacleManager.removeOffscreenObstacles at *
  dsimp only
  have hle := List.length_filter_le (fun o => !o.isOffScreen) m.obstacles
  omega

theorem omCounter_updateObstacles (d mu : ℚ) (m : ObstacleManager)
    (h : omCounter m) : omCounter (m.updateObstacles d mu) := by
  unfold omCounter ObstacleManager.updateObstacles at *
  simpa using h

theorem omCounter_handleSpawning (ty : OType) (yy te : ℚ) (m : ObstacleManager)
    (h : omCounter m) : omCounter (m.handleSpawning ty yy te) := by
  unfold ObstacleManager.handleSpawning
  split_ifs
  · have := omCounter_spawn ty yy m h
    unfold omCounter at this ⊢
    simpa using this
  · exact h

theorem omCounter_update (d te : ℚ) (lv : ℤ) (mu : ℚ) (ty : OType) (yy : ℚ)
    (m : ObstacleManager) (h : omCounter m) :
    omCounter (m.update d te lv mu ty yy) := by
  unfold ObstacleManager.update
  dsimp only
  apply omCounter_removeOff
  apply omCounter_updateObstacles
  apply omCounter_handleSpawning
  unfold omCounter at h ⊢
  unfold ObstacleManager.updateSpawnRate
  simpa using h

theorem omCounter_apply (op : OMOp) (m : ObstacleManager) (h : omCounter m) :
    omCounter (OMOp.apply m op) := by
  cases op with
  | upd d te lv mu ty yy => exact omCounter_update d te lv mu ty yy m h
  | spawn ty yy => exact omCounter_spawn ty yy m h
  | removeOff => exact omCounter_removeOff m h
  | resetAll =>
      show omCounter m.reset
      unfold omCounter ObstacleManager.reset
      simp

theorem omRunFrom_preserve :
    ∀ (ops : List OMOp) (m : ObstacleManager),
      omCounter m → omCounter (ObstacleManager.runFrom m ops)
  | [], _, h => h
  | op :: ops, m, h =>
      omRunFrom_preserve ops (OMOp.apply m op) (omCounter_apply op m h)

/-- C10: after every sequence of ObstacleManager operations from
construction, `totalSpawned = totalDestroyed + #obstacles`; moreover each
spawn adds exactly one obstacle and one to `totalSpawned`, reset zeroes
all three quantities, and an off-screen sweep adds exactly the number of
removed obstacles to `totalDestroyed`. -/
theorem C10_obstacle_counters :
    (∀ ops : List OMOp, omCounter (ObstacleManager.run ops)) ∧
    (∀ (ty : OType) (yy : ℚ) (m : ObstacleManager),
      (m.spawnObstacle ty yy).totalSpawned = m.totalSpawned + 1 ∧
      (m.spawnObstacle ty yy).obstacles.length = m.obstacles.length + 1) ∧
    (∀ m : ObstacleManager,
      m.reset.totalSpawned = 0 ∧ m.reset.totalDestroyed = 0 ∧
      m.reset.obstacles = []) ∧
    (∀ m : ObstacleManager,
      m.removeOffscreenObstacles.totalDestroyed
        = m.totalDestroyed
          + (m.obstacles.length - m.removeOffscreenObstacles.obstacles.length)) := by
  refine ⟨?_, ?_, ?_, ?_⟩
  · intro ops
    apply omRunFrom_preserve
    unfold omCounter ObstacleManager.start
    simp
  · intro ty yy m
    unfold ObstacleManager.spawnObstacle
    simp
  · intro m
    unfold ObstacleManager.reset
    simp
  · intro m
    unfold ObstacleManager.removeOffscreenObstacles
    simp

@[simp]
theorem obstacle_update_width (d mu : ℚ) (o : Obstacle) :
    (Obstacle.update d mu o).width = o.width := by
  unfold Obstacle.update
  split_ifs <;> rfl

/-- With a zero multiplier or a zero delta an obstacle does not move. -/
theorem obstacle_update_x_frozen (d mu : ℚ) (o : Obstacle) (h : mu = 0 ∨ d = 0) :
    (Obstacle.update d mu o).x = o.x := by
  unfold Obstacle.update
  rcases h with h | h <;> subst h <;> split_ifs <;> simp

theorem otype_width_pos (t : OType) : 0 < t.typeWidth := by
  cases t <;> norm_num [OType.typeWidth]

theorem markPassed_map_x (px : ℚ) (m : ObstacleManager) :
    ((m.checkObstaclesPassed px).1).obstacles.map Obstacle.x
      = m.obstacles.map Obstacle.x := by
  unfold ObstacleManager.checkObstaclesPassed
  dsimp only
  rw [List.map_map]
  apply List.map_congr_left
  intro o _
  dsimp only [Function.comp]
  split_ifs <;> rfl

theorem markPassed_safe (px : ℚ) (m : ObstacleManager)
    (h : ∀ o ∈ m.obstacles, 0 ≤ o.x + o.width) :
    ∀ o ∈ ((m.checkObstaclesPassed px).1).obstacles, 0 ≤ o.x + o.width := by
  unfold ObstacleManager.checkObstaclesPassed
  dsimp only
  intro o ho
  rw [List.mem_map] at ho
  obtain ⟨a, ha, rfl⟩ := ho
  split_ifs <;> simpa using h a ha

/-- With a zero multiplier or a zero delta, one `ObstacleManager.update`
leaves every existing obstacle's position unchanged, possibly appends one
obstacle at the spawn boundary `CANVAS_WIDTH + 50`, and keeps every
obstacle at a nonnegative right edge. -/
theorem om_update_frozen (d te : ℚ) (lv : ℤ) (mu : ℚ) (ty : OType) (yy : ℚ)
    (m : ObstacleManager) (hmz : mu = 0 ∨ d = 0)
    (hsafe : ∀ o ∈ m.obstacles, 0 ≤ o.x + o.width) :
    ((m.update d te lv mu ty yy).obstacles.map Obstacle.x
        = m.obstacles.map Obstacle.x ∨
     (m.update d te lv mu ty yy).obstacles.map Obstacle.x
        = m.obstacles.map Obstacle.x ++ [CANVAS_WIDTH + 50]) ∧
    ∀ o ∈ (m.update d te lv mu ty yy).obstacles, 0 ≤ o.x + o.width := by
  unfold ObstacleManager.update ObstacleManager.updateSpawnRate
    ObstacleManager.handleSpawning ObstacleManager.spawnObstacle
    ObstacleManager.updateObstacles ObstacleManager.removeOffscreenObstacles
  dsimp only
  split_ifs with hsp
  · -- spawn fires
    set newo := Obstacle.make (CANVAS_WIDTH + 50) yy ty
      (m.baseSpeed + (lv : ℚ) * DIFFICULTY_SPEED_INCREASE * m.baseSpeed) with hnew
    have hsafe2 : ∀ o ∈ (m.obstacles ++ [newo]).map (Obstacle.update d mu),
        0 ≤ o.x + o.width := by
      intro o ho
      rw [List.mem_map] at ho
      obtain ⟨a, ha, rfl⟩ := ho
      rw [List.mem_append] at ha
      rw [obstacle_update_x_frozen d mu a hmz, obstacle_update_width]
      rcases ha with ha | ha
      · exact hsafe a ha
      · rw [List.mem_singleton] at ha
        subst ha
        have := otype_width_pos ty
        simp only [hnew, Obstacle.make]
        norm_num [CANVAS_WIDTH]
        linarith
    have hfilter : ((m.obstacles ++ [newo]).map (Obstacle.update d mu)).filter
        (fun o => !o.isOffScreen) = (m.obstacles ++ [newo]).map (Obstacle.update d mu) := by
      rw [List.filter_eq_self]
      intro a ha
      have := hsafe2 a ha
      simp only [Obstacle.isOffScreen, Bool.not_eq_true', decide_eq_false_iff_not, not_lt]
      linarith
    constructor
    · right
      rw [hfilter, List.map_map, List.map_append]
      have h1 : List.map (Obstacle.x ∘ Obstacle.update d mu) m.obstacles
          = List.map Obstacle.x m.obstacles := by
        apply List.map_congr_left
        intro a _
        exact obstacle_update_x_frozen d mu a hmz
      have h2 : List.map (Obstacle.x ∘ Obstacle.update d mu) [newo]
          = [CANVAS_WIDTH + 50] := by
        simp only [List.map_cons, List.map_nil, Function.comp_apply]
        rw [obstacle_update_x_frozen d mu newo hmz]
        simp [hnew, Obstacle.make]
      rw [h1, h2]
    · intro o ho
      rw [hfilter] at ho
      exact hsafe2 o ho
  · -- no spawn
    have hsafe2 : ∀ o ∈ m.obstacles.map (Obstacle.update d mu), 0 ≤ o.x + o.width := by
      intro o ho
      rw [List.mem_map] at ho
      obtain ⟨a, ha, rfl⟩ := ho
      rw [obstacle_update_x_frozen d mu a hmz, obstacle_update_width]
      exact hsafe a ha
    have hfilter : (m.obstacles.map (Obstacle.update d mu)).filter
        (fun o => !o.isOffScreen) = m.obstacles.map (Obstacle.update d mu) := by
      rw [List.filter_eq_self]
      intro a ha
      have := hsafe2 a ha
      simp only [Obstacle.isOffScreen, Bool.not_eq_true', decide_eq_false_iff_not, not_lt]
      linarith
    constructor
    · left
      rw [hfilter, List.map_map]
      apply List.map_congr_left
      intro a _
      dsimp only [Function.comp]
      exact obstacle_update_x_frozen d mu a hmz
    · intro o ho
      rw [hfilter] at ho
      exact hsafe2 o ho

/-- A frozen-window tick that does not exhaust the remaining duration:
Freeze stays active, duration and cooldown both drop by the delta, and
the recomputed multiplier stays 0. -/
theorem pm_update_frozen_lt (dl D : ℚ) (pm : PowerManager)
    (hact : pm.freeze.active = true) (hdur : pm.freeze.duration = D)
    (hcool : pm.freeze.cooldown = D + 3000)
    (hd0 : 0 ≤ dl) (hdD : dl < D) :
    (PowerManager.update dl pm).freeze.active = true ∧
    (PowerManager.update dl pm).freeze.duration = D - dl ∧
    (PowerManager.update dl pm).freeze.cooldown = (D - dl) + 3000 ∧
    (PowerManager.update dl pm).timeMultiplier = 0 := by
  have h1 : ¬(D - dl ≤ 0) := by linarith
  have h2 : (0 : ℚ) < D + 3000 := by linarith
  have h3 : ¬(D + 3000 - dl ≤ 0) := by linarith
  have ha : Power.tickActive dl pm.freeze = { pm.freeze with duration := D - dl } := by
    unfold Power.tickActive
    rw [hact, hdur]
    simp [h1, hact]
  have hfr : Power.tick dl pm.freeze =
      { pm.freeze with duration := D - dl, cooldown := D + 3000 - dl } := by
    unfold Power.tick
    rw [ha]
    unfold Power.tickCooldown
    dsimp only
    rw [hcool]
    simp [h2, h3]
  have hfr2 : (PowerManager.update dl pm).freeze =
      { pm.freeze with duration := D - dl, cooldown := D + 3000 - dl } := by
    unfold PowerManager.update
    rw [updateTimeState_freeze]
    exact hfr
  refine ⟨?_, ?_, ?_, ?_⟩
  · rw [hfr2, hact]
  · rw [hfr2]
  · rw [hfr2]
    dsimp only
    ring
  · unfold PowerManager.update PowerManager.updateTimeState
    rw [if_pos (show (Power.tick dl pm.freeze).active = true by rw [hfr, hact])]

/-- The frozen-window tick that exhausts the remaining duration exactly:
Freeze switches off with duration clamped to 0 and the cooldown lands on
its remaining 3000ms. -/
theorem pm_update_frozen_exact (D : ℚ) (pm : PowerManager)
    (hact : pm.freeze.active = true) (hdur : pm.freeze.duration = D)
    (hcool : pm.freeze.cooldown = D + 3000) (hD : 0 < D) :
    (PowerManager.update D pm).freeze.active = false ∧
    (PowerManager.update D pm).freeze.duration = 0 ∧
    (PowerManager.update D pm).freeze.cooldown = 3000 := by
  have h2 : (0 : ℚ) < D + 3000 := by linarith
  have h3 : ¬(D + 3000 - D ≤ 0) := by linarith
  have ha : Power.tickActive D pm.freeze =
      { pm.freeze with active := false, duration := 0 } := by
    unfold Power.tickActive
    rw [hact, hdur]
    simp
  have hfr : Power.tick D pm.freeze =
      { pm.freeze with active := false, duration := 0, cooldown := 3000 } := by
    unfold Power.tick
    rw [ha]
    unfold Power.tickCooldown
    dsimp only
    rw [hcool]
    simp [h2, h3]
  have hfr2 : (PowerManager.update D pm).freeze =
      { pm.freeze with active := false, duration := 0, cooldown := 3000 } := by
    unfold PowerManager.update
    rw [updateTimeState_freeze]
    exact hfr
  exact ⟨by rw [hfr2], by rw [hfr2], by rw [hfr2]⟩

/-- A tick keeps inactive powers inactive. -/
theorem pm_update_keeps_inactive (dl : ℚ) (pm : PowerManager)
    (hs : pm.slow.active = false) (hp : pm.speed.active = false) :
    (PowerManager.update dl pm).slow.active = false ∧
    (PowerManager.update dl pm).speed.active = false := by
  unfold PowerManager.update
  rw [updateTimeState_slow, updateTimeState_speed]
  exact ⟨(tick_inactive dl pm.slow hs).1, (tick_inactive dl pm.speed hp).1⟩

/-- A zero-delta tick after the freeze expired: the freeze power stays
off with its cooldown pinned at 3000. -/
theorem pm_update_zero_tail (pm : PowerManager)
    (hf : pm.freeze.active = false) (hc : pm.freeze.cooldown = 3000) :
    (PowerManager.update 0 pm).freeze.active = false ∧
    (PowerManager.update 0 pm).freeze.cooldown = 3000 := by
  have ha : Power.tickActive 0 pm.freeze = pm.freeze := by
    unfold Power.tickActive
    rw [hf]
    simp
  have hfr : Power.tick 0 pm.freeze = pm.freeze := by
    unfold Power.tick
    rw [ha]
    unfold Power.tickCooldown
    dsimp only
    rw [hc]
    norm_num
    rw [← hc]
  unfold PowerManager.update
  rw [updateTimeState_freeze]
  rw [hfr]
  exact ⟨hf, hc⟩

theorem systemsUpdated_om (s : Step) (g : Game) :
    (Game.systemsUpdated s g).om
      = g.om.update s.delta (g.timeElapsed + s.delta)
          (max g.difficultyLevel ⌊(g.timeElapsed + s.delta) / DIFFICULTY_INTERVAL⌋)
          g.pm.timeMultiplier s.ty s.yy := by
  unfold Game.systemsUpdated Game.updateScore
  simp [updateDifficulty_level]

theorem step_om_of_not_collides (s : Step) (g : Game)
    (h : g.state = GState.playing) (hnc : Game.collides s g = false) :
    (Game.step s g).om
      = ((Game.systemsUpdated s g).om.checkObstaclesPassed
          (Game.systemsUpdated s g).player.x).1 := by
  unfold Game.step
  rw [if_pos h]
  dsimp only
  unfold Game.collides at hnc
  rw [hnc]
  simp

theorem playingThrough_head (l : List Step) (g : Game)
    (h : Game.playingThrough g l = true) : g.state = GState.playing := by
  cases l <;> simp [Game.playingThrough] at h
  · exact h
  · exact h.1

theorem playingThrough_tail (s : Step) (l : List Step) (g : Game)
    (h : Game.playingThrough g (s :: l) = true) :
    Game.playingThrough (Game.step s g) l = true := by
  simp [Game.playingThrough] at h
  exact h.2

theorem collides_false_of_playing (s : Step) (g : Game)
    (h : g.state = GState.playing) (h2 : (Game.step s g).state = GState.playing) :
    Game.collides s g = false := by
  by_contra hc
  rw [Bool.not_eq_false] at hc
  rw [step_state s g h, if_pos hc] at h2
  exact absurd h2 (by simp)

/-- Nonnegative rationals summing to zero are all zero. -/
theorem list_sum_zero_all_zero :
    ∀ l : List ℚ, (∀ x ∈ l, 0 ≤ x) → l.sum = 0 → ∀ x ∈ l, x = 0
  | [], _, _, x, hx => absurd hx (List.not_mem_nil x)
  | a :: rest, h, hsum, x, hx => by
      rw [List.sum_cons] at hsum
      have ha : 0 ≤ a := h a (List.mem_cons_self a rest)
      have hrest : 0 ≤ rest.sum :=
        List.sum_nonneg (fun y hy => h y (List.mem_cons_of_mem a hy))
      have ha0 : a = 0 := by linarith
      have hrest0 : rest.sum = 0 := by linarith
      rcases List.mem_cons.mp hx with hx | hx
      · rw [hx, ha0]
      · exact list_sum_zero_all_zero rest
          (fun y hy => h y (List.mem_cons_of_mem a hy)) hrest0 x hx

/-- Combining one frame's optional spawn with the remaining frames'
spawned suffix. -/
theorem map_window_combine {A : Type} (base mid fin : List A) (c : A) (k : ℕ)
    (h1 : mid = base ∨ mid = base ++ [c])
    (h2 : fin = mid ++ List.replicate k c) :
    ∃ j, fin = base ++ List.replicate j c := by
  rcases h1 with h | h
  · exact ⟨k, by rw [h2, h]⟩
  · refine ⟨k + 1, ?_⟩
    rw [h2, h, List.append_assoc]
    have : [c] ++ List.replicate k c = List.replicate (k + 1) c := by
      simp [List.replicate_succ]
    rw [this]

/-- After the freeze has expired, zero-delta frames change no obstacle
position and keep the freeze timer off with its cooldown at 3000. -/
theorem freeze_window_tail :
    ∀ (steps : List Step) (g : Game),
      g.pm.freeze.active = false →
      g.pm.freeze.cooldown = 3000 →
      (∀ o ∈ g.om.obstacles, 0 ≤ o.x + o.width) →
      (∀ s ∈ steps, s.delta = 0) →
      Game.playingThrough g steps = true →
      (Game.runSteps g steps).pm.freeze.active = false ∧
      (Game.runSteps g steps).pm.freeze.cooldown = 3000 ∧
      ∃ k, (Game.runSteps g steps).om.obstacles.map Obstacle.x
          = g.om.obstacles.map Obstacle.x ++ List.replicate k (CANVAS_WIDTH + 50)
  | [], g, hf, hc, _, _, _ => ⟨hf, hc, 0, by simp [Game.runSteps]⟩
  | s :: rest, g, hf, hc, hsafe, hz, hthr => by
      have hplay : g.state = GState.playing := playingThrough_head _ g hthr
      have hthr' : Game.playingThrough (Game.step s g) rest = true :=
        playingThrough_tail s rest g hthr
      have hplay' : (Game.step s g).state = GState.playing :=
        playingThrough_head rest _ hthr'
      have hnc : Game.collides s g = false := collides_false_of_playing s g hplay hplay'
      have hd0 : s.delta = 0 := hz s (List.mem_cons_self s rest)
      have hpm : (Game.step s g).pm = PowerManager.update s.delta g.pm := step_pm s g hplay
      have hf' : (Game.step s g).pm.freeze.active = false := by
        rw [hpm, hd0]
        exact (pm_update_zero_tail g.pm hf hc).1
      have hc' : (Game.step s g).pm.freeze.cooldown = 3000 := by
        rw [hpm, hd0]
        exact (pm_update_zero_tail g.pm hf hc).2
      have homstep := step_om_of_not_collides s g hplay hnc
      have hsafe' : ∀ o ∈ (Game.step s g).om.obstacles, 0 ≤ o.x + o.width := by
        rw [homstep, systemsUpdated_om]
        apply markPassed_safe
        exact (om_update_frozen _ _ _ _ _ _ g.om (Or.inr hd0) hsafe).2
      have hmapx : (Game.step s g).om.obstacles.map Obstacle.x
            = g.om.obstacles.map Obstacle.x ∨
          (Game.step s g).om.obstacles.map Obstacle.x
            = g.om.obstacles.map Obstacle.x ++ [CANVAS_WIDTH + 50] := by
        rw [homstep, systemsUpdated_om, markPassed_map_x]
        exact (om_update_frozen _ _ _ _ _ _ g.om (Or.inr hd0) hsafe).1
      obtain ⟨hfin1, hfin2, k, hk⟩ := freeze_window_tail rest (Game.step s g) hf' hc'
        hsafe' (fun x hx => hz x (List.mem_cons_of_mem s hx)) hthr'
      have hrun : Game.runSteps g (s :: rest) = Game.runSteps (Game.step s g) rest := rfl
      refine ⟨hfin1, hfin2, ?_⟩
      exact map_window_combine _ _ _ _ k hmapx (by rw [hrun]; exact hk)

/-- The core frozen-window run: while the ticks exhaust exactly the
remaining freeze duration, the freeze deactivates with cooldown 3000 and
every pre-existing obstacle keeps its exact position (new obstacles may
appear at the spawn boundary). -/
theorem freeze_window_main :
    ∀ (steps : List Step) (g : Game) (D : ℚ),
      g.pm.freeze.active = true →
      g.pm.freeze.duration = D →
      g.pm.freeze.cooldown = D + 3000 →
      g.pm.slow.active = false →
      g.pm.speed.active = false →
      g.pm.timeMultiplier = 0 →
      (∀ o ∈ g.om.obstacles, 0 ≤ o.x + o.width) →
      (∀ s ∈ steps, 0 ≤ s.delta) →
      (steps.map Step.delta).sum = D →
      0 < D →
      Game.playingThrough g steps = true →
      (Game.runSteps g steps).pm.freeze.active = false ∧
      (Game.runSteps g steps).pm.freeze.cooldown = 3000 ∧
      ∃ k, (Game.runSteps g steps).om.obstacles.map Obstacle.x
          = g.om.obstacles.map Obstacle.x ++ List.replicate k (CANVAS_WIDTH + 50)
  | [], _, D, _, _, _, _, _, _, _, _, hsum, hD, _ => by
      simp at hsum
      exact absurd hsum (by linarith)
  | s :: rest, g, D, hact, hdur, hcool, hs, hp, hm0, hsafe, hd, hsum, hD, hthr => by
      have hplay : g.state = GState.playing := playingThrough_head _ g hthr
      have hthr' : Game.playingThrough (Game.step s g) rest = true :=
        playingThrough_tail s rest g hthr
      have hplay' : (Game.step s g).state = GState.playing :=
        playingThrough_head rest _ hthr'
      have hnc : Game.collides s g = false := collides_false_of_playing s g hplay hplay'
      have hd0 : 0 ≤ s.delta := hd s (List.mem_cons_self s rest)
      have hsum' : s.delta + (rest.map Step.delta).sum = D := by
        simpa using hsum
      have hrest_nonneg : 0 ≤ (rest.map Step.delta).sum := by
        apply List.sum_nonneg
        intro x hx
        rw [List.mem_map] at hx
        obtain ⟨a, ha, rfl⟩ := hx
        exact hd a (List.mem_cons_of_mem s ha)
      have hdle : s.delta ≤ D := by linarith
      have hpm : (Game.step s g).pm = PowerManager.update s.delta g.pm := step_pm s g hplay
      have homstep := step_om_of_not_collides s g hplay hnc
      have hsafe' : ∀ o ∈ (Game.step s g).om.obstacles, 0 ≤ o.x + o.width := by
        rw [homstep, systemsUpdated_om]
        apply markPassed_safe
        exact (om_update_frozen _ _ _ _ _ _ g.om (Or.inl hm0) hsafe).2
      have hmapx : (Game.step s g).om.obstacles.map Obstacle.x
            = g.om.obstacles.map Obstacle.x ∨
          (Game.step s g).om.obstacles.map Obstacle.x
            = g.om.obstacles.map Obstacle.x ++ [CANVAS_WIDTH + 50] := by
        rw [homstep, systemsUpdated_om, markPassed_map_x]
        exact (om_update_frozen _ _ _ _ _ _ g.om (Or.inl hm0) hsafe).1
      have hrun : Game.runSteps g (s :: rest) = Game.runSteps (Game.step s g) rest := rfl
      have hkeep := pm_update_keeps_inactive s.delta g.pm hs hp
      rcases lt_or_eq_of_le hdle with hlt | heq
      · obtain ⟨ha2, hd2, hc2, hm2⟩ :=
          pm_update_frozen_lt s.delta D g.pm hact hdur hcool hd0 hlt
        obtain ⟨hfin1, hfin2, k, hk⟩ := freeze_window_main rest (Game.step s g)
          (D - s.delta)
          (by rw [hpm]; exact ha2)
          (by rw [hpm]; exact hd2)
          (by rw [hpm]; exact hc2)
          (by rw [hpm]; exact hkeep.1)
          (by rw [hpm]; exact hkeep.2)
          (by rw [hpm]; exact hm2)
          hsafe'
          (fun x hx => hd x (List.mem_cons_of_mem s hx))
          (by linarith)
          (by linarith)
          hthr'
        refine ⟨hfin1, hfin2, ?_⟩
        exact map_window_combine _ _ _ _ k hmapx (by rw [hrun]; exact hk)
      · have hexact := pm_update_frozen_exact D g.pm hact hdur hcool hD
        have ha2 : (Game.step s g).pm.freeze.active = false := by
          rw [hpm, heq]
          exact hexact.1
        have hc2 : (Game.step s g).pm.freeze.cooldown = 3000 := by
          rw [hpm, heq]
          exact hexact.2.2
        have hrest_zero : ∀ x ∈ rest, x.delta = 0 := by
          intro x hx
          have hz : (rest.map Step.delta).sum = 0 := by linarith
          exact list_sum_zero_all_zero (rest.map Step.delta)
            (fun y hy => by
              rw [List.mem_map] at hy
              obtain ⟨a, ha, rfl⟩ := hy
              exact hd a (List.mem_cons_of_mem s ha))
            hz x.delta (List.mem_map_of_mem Step.delta hx)
        obtain ⟨hfin1, hfin2, k, hk⟩ := freeze_window_tail rest (Game.step s g)
          ha2 hc2 hsafe' hrest_zero hthr'
        refine ⟨hfin1, hfin2, ?_⟩
        exact map_window_combine _ _ _ _ k hmapx (by rw [hrun]; exact hk)

/-- C1: in the playing state, if Freeze is activated and then ticks
totalling exactly 2000ms elapse without the run ending, the freeze power
is automatically deactivated, its remaining cooldown is
`5000 - 2000 = 3000` ms, and every hazard present at activation has the
same position afterwards (zero net displacement at multiplier 0; freshly
spawned hazards sit at the spawn boundary `CANVAS_WIDTH + 50`). -/
theorem C1_freeze_two_second_window (g : Game) (steps : List Step)
    (hplay : g.state = GState.playing)
    (hcan : g.pm.canActivatePower PName.freeze = true)
    (hmaxd : g.pm.freeze.maxDuration = FREEZE_DURATION)
    (hmaxc : g.pm.freeze.maxCooldown = FREEZE_COOLDOWN)
    (hobs : ∀ o ∈ g.om.obstacles, 0 ≤ o.x + o.width)
    (hd : ∀ s ∈ steps, 0 ≤ s.delta)
    (hsum : (steps.map Step.delta).sum = 2000)
    (hthrough : Game.playingThrough (Game.pressFreeze g) steps = true) :
    (Game.runSteps (Game.pressFreeze g) steps).pm.freeze.active = false ∧
    (Game.runSteps (Game.pressFreeze g) steps).pm.freeze.cooldown = 3000 ∧
    ∃ k, (Game.runSteps (Game.pressFreeze g) steps).om.obstacles.map Obstacle.x
        = g.om.obstacles.map Obstacle.x ++ List.replicate k (CANVAS_WIDTH + 50) := by
  have hpg : Game.pressFreeze g = { g with pm := (g.pm.activatePower PName.freeze).1 } := by
    unfold Game.pressFreeze PowerManager.activateFreeze
    rw [if_pos hplay]
  obtain ⟨-, hfa, hfd, hfc, hothers⟩ := activate_success_spec g.pm PName.freeze hcan
  have hcons : pmConsistent (g.pm.activatePower PName.freeze).1 := by
    unfold PowerManager.activatePower
    rw [hcan]
    simp only [Bool.not_true]
    rw [if_neg (by simp)]
    dsimp only
    exact updateTimeState_consistent _
  have hfa' : (g.pm.activatePower PName.freeze).1.freeze.active = true := hfa
  have hmult : (g.pm.activatePower PName.freeze).1.timeMultiplier = 0 := by
    rw [hcons.2]
    unfold derivedMult
    rw [hfa']
    simp
  have hslow : (g.pm.activatePower PName.freeze).1.slow.active = false :=
    (hothers PName.slow (by decide)).1
  have hspeed : (g.pm.activatePower PName.freeze).1.speed.active = false :=
    (hothers PName.speed (by decide)).1
  have hres := freeze_window_main steps (Game.pressFreeze g) 2000
    (by rw [hpg]; exact hfa')
    (by rw [hpg]
        show (g.pm.activatePower PName.freeze).1.freeze.duration = 2000
        rw [show (g.pm.activatePower PName.freeze).1.freeze.duration
              = ((g.pm.activatePower PName.freeze).1.getPower PName.freeze).duration from rfl]
        rw [hfd]
        rw [show (g.pm.getPower PName.freeze) = g.pm.freeze from rfl, hmaxd]
        norm_num [FREEZE_DURATION])
    (by rw [hpg]
        show (g.pm.activatePower PName.freeze).1.freeze.cooldown = 2000 + 3000
        rw [show (g.pm.activatePower PName.freeze).1.freeze.cooldown
              = ((g.pm.activatePower PName.freeze).1.getPower PName.freeze).cooldown from rfl]
        rw [hfc]
        rw [show (g.pm.getPower PName.freeze) = g.pm.freeze from rfl, hmaxc]
        norm_num [FREEZE_COOLDOWN])
    (by rw [hpg]; exact hslow)
    (by rw [hpg]; exact hspeed)
    (by rw [hpg]; exact hmult)
    (by rw [hpg]; exact hobs)
    hd hsum (by norm_num) hthrough
  obtain ⟨h1, h2, k, hk⟩ := hres
  refine ⟨h1, h2, k, ?_⟩
  rw [hk, hpg]

/-- Witness for C1: a fresh game, Freeze pressed, then two 1000ms
frames. -/
theorem C1_witness :
    (Game.startGame.state = GState.playing ∧
     Game.startGame.pm.canActivatePower PName.freeze = true ∧
     Game.startGame.pm.freeze.maxDuration = FREEZE_DURATION ∧
     Game.startGame.pm.freeze.maxCooldown = FREEZE_COOLDOWN ∧
     (∀ o ∈ Game.startGame.om.obstacles, 0 ≤ o.x + o.width) ∧
     (∀ s ∈ [({ delta := 1000, ty := OType.spike, yy := 300 } : Step),
             { delta := 1000, ty := OType.debris, yy := 300 }], 0 ≤ s.delta) ∧
     (([({ delta := 1000, ty := OType.spike, yy := 300 } : Step),
        { delta := 1000, ty := OType.debris, yy := 300 }].map Step.delta).sum = 2000) ∧
     Game.playingThrough (Game.pressFreeze Game.startGame)
       [{ delta := 1000, ty := OType.spike, yy := 300 },
        { delta := 1000, ty := OType.debris, yy := 300 }] = true) ∧
    ((Game.runSteps (Game.pressFreeze Game.startGame)
        [{ delta := 1000, ty := OType.spike, yy := 300 },
         { delta := 1000, ty := OType.debris, yy := 300 }]).pm.freeze.active = false ∧
     (Game.runSteps (Game.pressFreeze Game.startGame)
        [{ delta := 1000, ty := OType.spike, yy := 300 },
         { delta := 1000, ty := OType.debris, yy := 300 }]).pm.freeze.cooldown = 3000 ∧
     ∃ k, (Game.runSteps (Game.pressFreeze Game.startGame)
        [{ delta := 1000, ty := OType.spike, yy := 300 },
         { delta := 1000, ty := OType.debris, yy := 300 }]).om.obstacles.map Obstacle.x
       = Game.startGame.om.obstacles.map Obstacle.x
         ++ List.replicate k (CANVAS_WIDTH + 50)) := by
  have h1 : Game.startGame.state = GState.playing := rfl
  have h2 : Game.startGame.pm.canActivatePower PName.freeze = true := by
    norm_num [PowerManager.canActivatePower, PowerManager.getPower,
      PowerManager.start, Game.startGame]
  have h3 : Game.startGame.pm.freeze.maxDuration = FREEZE_DURATION := rfl
  have h4 : Game.startGame.pm.freeze.maxCooldown = FREEZE_COOLDOWN := rfl
  have h5 : ∀ o ∈ Game.startGame.om.obstacles, 0 ≤ o.x + o.width := by
    intro o ho
    simp [Game.startGame, ObstacleManager.start] at ho
  have h6 : ∀ s ∈ [({ delta := 1000, ty := OType.spike, yy := 300 } : Step),
      { delta := 1000, ty := OType.debris, yy := 300 }], 0 ≤ s.delta := by
    intro s hs
    fin_cases hs <;> norm_num
  have h7 : (([({ delta := 1000, ty := OType.spike, yy := 300 } : Step),
      { delta := 1000, ty := OType.debris, yy := 300 }].map Step.delta).sum = 2000) := by
    norm_num
  have h8 : Game.playingThrough (Game.pressFreeze Game.startGame)
      [{ delta := 1000, ty := OType.spike, yy := 300 },
       { delta := 1000, ty := OType.debris, yy := 300 }] = true := by
    norm_num [Game.playingThrough, Game.step, Game.systemsUpdated, Game.updateDifficulty,
      Game.updateScore, scoreMultOf, Game.startGame, Game.pressFreeze,
      PlayerS.update, PlayerS.start, PlayerS.getBounds,
      ObstacleManager.update, ObstacleManager.updateSpawnRate,
      ObstacleManager.handleSpawning, ObstacleManager.spawnObstacle,
      ObstacleManager.updateObstacles, ObstacleManager.removeOffscreenObstacles,
      ObstacleManager.checkCollisions, ObstacleManager.checkObstaclesPassed,
      ObstacleManager.start, Obstacle.make, Obstacle.update, Obstacle.isOffScreen,
      Obstacle.hasPlayerPassed, Obstacle.getBounds, rectCollision,
      OType.typeWidth, OType.typeHeight,
      PowerManager.update, PowerManager.updateTimeState, Power.tick,
      Power.tickActive, Power.tickCooldown, PowerManager.activateFreeze,
      PowerManager.activatePower, PowerManager.canActivatePower,
      PowerManager.deactivateAllPowers, PowerManager.deactivatePower,
      PowerManager.setPower, PowerManager.getPower, PowerManager.start,
      Game.runSteps, List.find?, List.filter,
      FREEZE_DURATION, FREEZE_COOLDOWN, SLOW_DURATION, SLOW_COOLDOWN,
      SPEED_DURATION, SPEED_COOLDOWN, SCORE_PER_SECOND, SCORE_PER_OBSTACLE,
      DIFFICULTY_INTERVAL, DIFFICULTY_SPEED_INCREASE, DIFFICULTY_SPAWN_DECREASE,
      OBSTACLE_SPAWN_RATE, OBSTACLE_MIN_GAP, OBSTACLE_MIN_SPEED, CANVAS_WIDTH]
  exact ⟨⟨h1, h2, h3, h4, h5, h6, h7, h8⟩,
    C1_freeze_two_second_window Game.startGame
      [{ delta := 1000, ty := OType.spike, yy := 300 },
       { delta := 1000, ty := OType.debris, yy := 300 }] h1 h2 h3 h4 h5 h6 h7 h8⟩
